import Mathlib

/-!
Verification development for the GGForge tournament engine
(`app/services/tournament_service.py`).

We shallowly embed the service layer over the state of a single tournament:
the SQLAlchemy session is modelled as an explicit state record, every service
function becomes a function `TState → Except String TState` (Python exceptions
become `Except.error` carrying the exception message), and each logical
operation is treated transactionally (an error aborts the whole operation).
UUIDs are modelled as natural numbers.  `random.shuffle` is modelled by an
explicit reordering function passed to the operations that shuffle.
-/

namespace GGForge

/-- One map (game) of a match: `Map` model.  `winner_id` is `none` until the
map is decided (a draw is recorded by `complete_map` as a map whose
`winner_id` stays `none` but whose `decided` cannot be re-set; the source
detects decidedness by `winner_id is not None`, which we mirror). -/
structure MapRec where
  id : Nat
  match_id : Nat
  winner_id : Option Nat
deriving Repr, DecidableEq

/-- A match: the `Match` model.  `participant1_id`/`participant2_id` are user
or team ids depending on the tournament type; `playoff_match_id` links to the
`PlayoffStageMatch` bracket node when the match is a playoff match. -/
structure MatchRec where
  id : Nat
  participant1_id : Option Nat
  participant2_id : Option Nat
  participant1_score : Nat
  participant2_score : Nat
  winner_id : Option Nat
  status : String
  format : String
  group_id : Option Nat
  playoff_match_id : Option Nat
  number : Nat
deriving Repr, DecidableEq

/-- A bracket node: the `PlayoffStageMatch` model.  The source stores
`round_number` as `str(round)` and converts with `int(...)` (or compares
lexicographically, which agrees with numeric order for the single-digit
rounds exercised here); we model the number directly. -/
structure PlayoffStageMatch where
  id : Nat
  match_id : Nat
  round_number : Nat
  bracket : String
  depends_on_match_1_id : Option Nat
  depends_on_match_2_id : Option Nat
deriving Repr, DecidableEq

/-- A standings row: the `GroupRow` model.  The source keeps separate
`user_id`/`team_id` columns, exactly one of which is populated according to
the tournament type; we merge them into `participant_id`. -/
structure GroupRow where
  id : Nat
  group_id : Nat
  participant_id : Option Nat
  place : Nat
  wins : Nat
  draws : Nat
  loses : Nat
deriving Repr, DecidableEq

/-- A group of the group stage: the `Group` model.  `members` is the
`group.participants`/`group.teams` relationship (ids). -/
structure GroupRec where
  id : Nat
  letter : String
  max_participants : Nat
  members : List Nat
deriving Repr, DecidableEq

/-- A Python value stored in a prize-table cell.  `complete_tournament`
assigns a plain id (or `None`) to the 1st/2nd-place rows, but a 1-tuple to
the 3rd-place row (trailing commas in the source), so the cell type must be
able to tell the two apart. -/
inductive Cell where
  | empty : Cell
  | pval : Nat → Cell
  | ptuple : Option Nat → Cell
deriving Repr, DecidableEq

/-- A row of the prize table: the `PrizeTableRow` model. -/
structure PrizeTableRow where
  place : Nat
  user_id : Cell
  team_id : Cell
  prize : Rat
deriving Repr, DecidableEq

/-- The `GroupStage` model (its `groups` live in the tournament state). -/
structure GroupStageRec where
  winners_bracket_qualified : Nat
deriving Repr, DecidableEq

/-- The persistent state of one tournament together with the global
`User`/`Team` tables it consults.  `matches` holds every match of the
tournament (group and playoff); `playoff_matches` the bracket nodes;
`group_rows` all standings rows.  `prize_fund` is stored as a string in the
source (`str(prize_fund)` or `"0"`); we store the rational it denotes. -/
structure TState where
  status : String
  type : String
  users : List Nat
  all_teams : List Nat
  participants : List Nat
  teams : List Nat
  max_players : Nat
  match_format : String
  final_format : String
  prize_fund : Rat
  prize_table : Bool
  prize_rows : List PrizeTableRow
  group_stage : Option GroupStageRec
  groups : List GroupRec
  group_rows : List GroupRow
  playoff_stage : Bool
  playoff_matches : List PlayoffStageMatch
  all_matches : List MatchRec
  maps : List MapRec
  next_id : Nat
deriving Repr, DecidableEq

/-- `Match.query.get` restricted to this tournament (`get_match`). -/
def findMatch (st : TState) (match_id : Nat) : Option MatchRec :=
  st.all_matches.find? (fun m => m.id = match_id)

/-- Point update of one match record (the ORM mutates the row in place). -/
def updateMatch (st : TState) (match_id : Nat) (f : MatchRec → MatchRec) : TState :=
  { st with all_matches := st.all_matches.map (fun m => if m.id = match_id then f m else m) }

/-- `PlayoffStageMatch` lookup by node id. -/
def findNode (st : TState) (node_id : Nat) : Option PlayoffStageMatch :=
  st.playoff_matches.find? (fun n => n.id = node_id)

/-- `match.playoff_match` relationship. -/
def playoffNodeOf (st : TState) (m : MatchRec) : Option PlayoffStageMatch :=
  m.playoff_match_id.bind (fun nid => findNode st nid)

/-! Named record updaters for the ORM field assignments of the source;
naming them keeps the state-transition proofs readable. -/

/-- `map_.winner_id = winner_id` applied across the maps table. -/
def setMapWinner (map_id : Nat) (w : Option Nat) (q : MapRec) : MapRec :=
  if q.id = map_id then { q with winner_id := w } else q

/-- The score bump of `complete_map` (Python `==`: `None == None` holds). -/
def mapScoreUpd (w : Option Nat) (mm : MatchRec) : MatchRec :=
  if w = mm.participant1_id then
    { mm with participant1_score := mm.participant1_score + 1 }
  else if w = mm.participant2_id then
    { mm with participant2_score := mm.participant2_score + 1 }
  else mm

/-- `match.winner_id = w`. -/
def setWinner (w : Nat) (m : MatchRec) : MatchRec := { m with winner_id := some w }

/-- `match.status = s`. -/
def setStatus (s : String) (m : MatchRec) : MatchRec := { m with status := s }

/-- `match.status = "cancelled"` with no winner change. -/
def cancelOnly (m : MatchRec) : MatchRec := { m with status := "cancelled" }

/-- `match.winner_id = w; match.status = "cancelled"`. -/
def cancelWith (w : Option Nat) (m : MatchRec) : MatchRec :=
  { m with winner_id := w, status := "cancelled" }

/-- `match.status = "completed"; match.winner_id = None` (bo2 draw). -/
def completeDraw (m : MatchRec) : MatchRec :=
  { m with status := "completed", winner_id := none }

/-- `next_match.participant1_id = w`. -/
def setP1 (w : Nat) (m : MatchRec) : MatchRec := { m with participant1_id := some w }

/-- `next_match.participant2_id = w`. -/
def setP2 (w : Nat) (m : MatchRec) : MatchRec := { m with participant2_id := some w }

/-- Seeding writes both participant slots. -/
def assignPair (p1 p2 : Option Nat) (m : MatchRec) : MatchRec :=
  { m with participant1_id := p1, participant2_id := p2 }

/-- Membership test used for `User.query.get(x) or Team.query.get(x)`. -/
def isKnownParticipant (st : TState) (x : Nat) : Bool :=
  st.users.contains x || st.all_teams.contains x

/-- Stable insertion into a list sorted by `le` (greatest first when `le` is
a `≥`-like comparison): the element is placed before the first entry it
relates to, so equal elements keep their original relative order, exactly
like Python's stable `list.sort`. -/
def insertStable (le : α → α → Bool) (a : α) : List α → List α
  | [] => [a]
  | b :: l => if le a b then a :: b :: l else b :: insertStable le a l

/-- Stable sort modelling Python's `list.sort` (Timsort is stable). -/
def stableSort (le : α → α → Bool) : List α → List α
  | [] => []
  | a :: l => insertStable le a (stableSort le l)

/-- `ceil(log2 n)` via fuel recursion so that it evaluates by `decide`;
models `math.ceil(math.log2(n))` (exact for the integer inputs used). -/
def ceilLog2Aux : Nat → Nat → Nat
  | 0, _ => 0
  | fuel + 1, n => if n ≤ 1 then 0 else ceilLog2Aux fuel ((n + 1) / 2) + 1

/-- `ceil(log2 n)`. -/
def ceilLog2 (n : Nat) : Nat := ceilLog2Aux n n

/-- `2 ** math.ceil(math.log2(n))`: the bracket slot count. -/
def nextPow2 (n : Nat) : Nat := 2 ^ ceilLog2 n

theorem ceilLog2_examples :
    ceilLog2 2 = 1 ∧ ceilLog2 3 = 2 ∧ ceilLog2 5 = 3 ∧ ceilLog2 8 = 3 := by decide

/-- Descending comparison used by `sort_group_standings`:
`standings.sort(key=lambda x: (x["points"], x["wins"]), reverse=True)`.
Entries are `(points, wins, row id)`; the id takes no part in the
comparison, so tied entries keep list order (stability). -/
def standingsGe (a b : Nat × Nat × Nat) : Bool :=
  (b.1 < a.1) || (b.1 = a.1 && b.2.1 ≤ a.2.1)

/-- One-based position of the row with the given id in the sorted standings
(`enumerate(standings, 1)`); row ids are unique in any reachable state. -/
def placeIn (sorted : List (Nat × Nat × Nat)) (rid : Nat) : Nat :=
  match sorted.findIdx? (fun e => e.2.2 = rid) with
  | some i => i + 1
  | none => 0

/-- The sort entry built for a row:
`{"points": row.wins * 2 + row.draws * 1, "wins": row.wins}` plus the row id
(standing in for the `"row"` object reference). -/
def rowKey (r : GroupRow) : Nat × Nat × Nat := (r.wins * 2 + r.draws * 1, r.wins, r.id)

/-- Write the recomputed place into a row of the sorted group. -/
def placeUpd (sorted : List (Nat × Nat × Nat)) (group_id : Nat) (r : GroupRow) : GroupRow :=
  if r.group_id = group_id then { r with place := placeIn sorted r.id } else r

/-- `sort_group_standings(group_id)`: recompute `place` for every row of the
group from `2*wins + draws` points, descending by `(points, wins)`, ties in
stable (query) order. -/
def sort_group_standings (st : TState) (group_id : Nat) : Except String TState :=
  match st.groups.find? (fun g => g.id = group_id) with
  | none => .error "Group not found"
  | some _ =>
    let rows := st.group_rows.filter (fun r => r.group_id = group_id)
    if rows.isEmpty then
      .error "Failed to sort group standings: no participants found"
    else
      .ok { st with
              group_rows := st.group_rows.map
                (placeUpd (stableSort standingsGe (rows.map rowKey)) group_id) }

/-- `update_match_results(tournament_id, match_id, winner_id, status)`. -/
def update_match_results (st : TState) (match_id : Nat) (winner_id : Option Nat)
    (status : Option String) : Except String TState :=
  match findMatch st match_id with
  | none => .error "Match not found"
  | some m =>
    if m.status = "completed" then .error "Match is already completed"
    else if m.participant1_id = none ∧ m.participant2_id = none then
      -- no participants: force status to cancelled, no winner
      .ok (updateMatch st match_id (cancelWith none))
    else
      let checkWinner : Except String Unit :=
        match winner_id with
        | none => .ok ()
        | some w =>
          if ¬ isKnownParticipant st w then .error "Winner not found"
          else if ¬ (some w = m.participant1_id ∨ some w = m.participant2_id) then
            .error "Winner must be one of the participants"
          else .ok ()
      match checkWinner with
      | .error e => .error e
      | .ok _ =>
        let st1 := match winner_id with
          | some w => updateMatch st match_id (setWinner w)
          | none => st
        match status with
        | none => .ok st1
        | some s =>
          if ¬ (s = "scheduled" ∨ s = "ongoing" ∨ s = "completed" ∨ s = "cancelled") then
            .error "Invalid match status"
          else if s = "completed" ∧ winner_id = none then
            .error "Winner ID is required for completed status"
          else .ok (updateMatch st1 match_id (setStatus s))

/-- Python `match.format.startswith("bo")` over the character data. -/
def startsWithBo (s : String) : Bool :=
  match s.data with
  | 'b' :: 'o' :: _ => true
  | _ => false

/-- Decimal digit accumulator for Python `int(...)`. -/
def toNatDigits? (acc : Nat) : List Char → Option Nat
  | [] => some acc
  | c :: cs => if c.isDigit then toNatDigits? (10 * acc + (c.toNat - 48)) cs else none

/-- Python `int(match.format[2:])`: the number after the `"bo"` prefix;
`none` models the `ValueError` on an empty or non-numeric remainder. -/
def boNum? (s : String) : Option Nat :=
  match s.data.drop 2 with
  | [] => none
  | cs => toNatDigits? 0 cs

/-- `reset_tournament(tournament_id)`: wipe the derived structures, restore
status `open`; registered participants and teams are untouched. -/
def reset_tournament (st : TState) : Except String TState :=
  if st.status = "open" then .error "Tournament is already in open status"
  else
    .ok { st with
            status := "open",
            group_stage := none,
            groups := [],
            group_rows := [],
            playoff_stage := false,
            playoff_matches := [],
            all_matches := [],
            maps := [],
            prize_table := false,
            prize_rows := [] }

/-- Point update of one standings row. -/
def updateRow (st : TState) (rid : Nat) (f : GroupRow → GroupRow) : TState :=
  { st with group_rows := st.group_rows.map (fun r => if r.id = rid then f r else r) }


/-- The tail of `update_next_match_participants` after the winner has been
written into a slot of the dependent match `nxt`: when the parallel feeder
of `nxt` is already cancelled and `nxt` now holds exactly one participant,
`nxt` is cancelled with that participant as winner and the advance recurses
(`recur` is the recursive call with one unit of fuel consumed). -/
def updNextCont (recur : TState → Nat → Nat → Except String TState)
    (st1 : TState) (nxt pm : PlayoffStageMatch) : Except String TState :=
  let parallel_id := if nxt.depends_on_match_2_id = some pm.id
    then nxt.depends_on_match_1_id else nxt.depends_on_match_2_id
  match parallel_id.bind (fun pid => findNode st1 pid) with
  | none => .ok st1
  | some par =>
    match findMatch st1 par.match_id with
    | none => .ok st1
    | some parM =>
      if ¬ parM.status = "cancelled" then .ok st1
      else
        match findMatch st1 nxt.match_id with
        | none => .ok st1
        | some nm1 =>
          match nm1.participant1_id, nm1.participant2_id with
          | some w1, none =>
            recur (updateMatch st1 nxt.match_id (cancelWith (some w1))) nxt.match_id w1
          | none, some w2 =>
            recur (updateMatch st1 nxt.match_id (cancelWith (some w2))) nxt.match_id w2
          | _, _ => .ok st1

/-- `update_next_match_participants(tournament_id, match_id, winner_id)`:
advance the winner into the bracket node that depends on this match, then
auto-resolve byes via `updNextCont`, recursing up the bracket.  The
recursion strictly ascends the bracket, so callers pass a fuel of
`playoff_matches.length + 1`, which can never be exhausted in a reachable
state (Python would raise `RecursionError` on a cyclic dependency graph,
modelled by the fuel-exhaustion error). -/
def update_next_match_participants (fuel : Nat) (st : TState) (match_id : Nat)
    (winner_id : Nat) : Except String TState :=
  match fuel with
  | 0 => .error "maximum recursion depth exceeded"
  | fuel + 1 =>
    match findMatch st match_id with
    | none => .error "Match not found"
    | some m =>
      match playoffNodeOf st m with
      | none => .ok st
      | some pm =>
        match (st.playoff_matches.find? (fun n => n.depends_on_match_1_id = some pm.id)).orElse
            (fun _ => st.playoff_matches.find? (fun n => n.depends_on_match_2_id = some pm.id)) with
        | none => .ok st
        | some nxt =>
          match findMatch st nxt.match_id with
          | none => .ok st
          | some nm =>
            let assign : Except String TState :=
              if nm.participant1_id = none then
                .ok (updateMatch st nxt.match_id (setP1 winner_id))
              else if nm.participant2_id = none then
                .ok (updateMatch st nxt.match_id (setP2 winner_id))
              else .error "Next winner match already has both participants"
            match assign with
            | .error e => .error e
            | .ok st1 =>
              updNextCont (fun s a b => update_next_match_participants fuel s a b) st1 nxt pm

/-- The bye-resolution block that the source duplicates in
`validate_match_setup` and at the end of each seeding step of
`assign_participants_to_playoff_stage`: a first-round match with no
participants is cancelled, one with a single participant is cancelled with
that participant as winner and the winner is propagated. -/
def resolveByes (st : TState) (n : PlayoffStageMatch) : Except String TState :=
  match findMatch st n.match_id with
  | none => .ok st
  | some m =>
    match m.participant1_id, m.participant2_id with
    | none, none => .ok (updateMatch st n.match_id cancelOnly)
    | some w, none =>
      let st1 := updateMatch st n.match_id (cancelWith (some w))
      update_next_match_participants (st1.playoff_matches.length + 1) st1 n.match_id w
    | none, some w =>
      let st1 := updateMatch st n.match_id (cancelWith (some w))
      update_next_match_participants (st1.playoff_matches.length + 1) st1 n.match_id w
    | some _, some _ => .ok st

/-- `validate_match_setup(tournament_id)`: resolve byes on every round-1
winner-bracket match (query order 'modelled as list order). -/
def validate_match_setup (st : TState) : Except String TState :=
  (st.playoff_matches.filter
    (fun n => n.round_number = 1 ∧ n.bracket = "winner")).foldlM resolveByes st

/-- Row comparison of the qualifier query:
`order_by(GroupRow.place.asc(), GroupRow.wins.desc())`. -/
def qualifierLe (a b : GroupRow) : Bool :=
  (a.place < b.place) || (a.place = b.place && b.wins ≤ a.wins)

/-- The playoff qualifiers drawn from the groups: for each group, its rows
ordered by `(place asc, wins desc)` limited to `winners_bracket_qualified`,
projected to `row.team`/`row.user` (our merged `participant_id`). -/
def qualifiers (st : TState) (gs : GroupStageRec) : List (Option Nat) :=
  st.groups.flatMap (fun g =>
    ((stableSort qualifierLe (st.group_rows.filter (fun r => r.group_id = g.id))).take
        gs.winners_bracket_qualified).map (fun r => r.participant_id))

/-- One seeding step of `assign_participants_to_playoff_stage`: write the
next two shuffled participants into the first-round match (slots past the
end of the list become `None`; a placeholder row would make Python fail on
`None.id`), then resolve byes exactly as `validate_match_setup` does. -/
def seedStep (shuffled : List (Option Nat)) (acc : TState × Nat) (n : PlayoffStageMatch) :
    Except String (TState × Nat) :=
  let st := acc.1
  let idx := acc.2
  let getP : Nat → Except String (Option Nat) := fun i =>
    if h : i < shuffled.length then
      match shuffled.get ⟨i, h⟩ with
      | some v => .ok (some v)
      | none => .error "'NoneType' object has no attribute 'id'"
    else .ok none
  match getP idx with
  | .error e => .error e
  | .ok p1 =>
    match getP (idx + 1) with
    | .error e => .error e
    | .ok p2 =>
      let st1 := updateMatch st n.match_id (assignPair p1 p2)
      match resolveByes st1 n with
      | .error e => .error e
      | .ok st2 => .ok (st2, idx + 2)

/-- `assign_participants_to_playoff_stage(tournament_id)`: seed the round-1
winner-bracket matches (ordered by node id) from the shuffled qualifier list
(group-stage tournaments) or the shuffled registration list. -/
def assign_participants_to_playoff_stage (shuffle : List (Option Nat) → List (Option Nat))
    (st : TState) : Except String TState :=
  if ¬ st.playoff_stage then .error "Playoff stage not found"
  else
    let parts : List (Option Nat) :=
      match st.group_stage with
      | some gs => qualifiers st gs
      | none => (if st.type = "team" then st.teams else st.participants).map some
    if parts.length < 2 then .error "Insufficient participants for playoff stage"
    else if nextPow2 parts.length < parts.length then
      .error "Too many participants for playoff structure"
    else
      let shuffled := shuffle parts
      let frm := stableSort (fun a b => a.id ≤ b.id)
        (st.playoff_matches.filter (fun n => n.round_number = 1 ∧ n.bracket = "winner"))
      match frm.foldlM (seedStep shuffled) (st, 0) with
      | .error e => .error ("Failed to assign participants: " ++ e)
      | .ok (st1, _) => .ok st1

/-- `complete_group_stage(tournament_id)`: check every group match is
decided, then seed the playoff stage and validate first-round byes. -/
def complete_group_stage (shuffle : List (Option Nat) → List (Option Nat))
    (st : TState) : Except String TState :=
  match st.group_stage with
  | none => .error "Tournament does not have a group stage"
  | some _ =>
    if ¬ st.groups.all (fun g =>
        (st.all_matches.filter (fun m => m.group_id = some g.id)).all
          (fun m => m.status = "completed" || m.status = "cancelled")) then
      .error "Not all group stage matches are completed"
    else
      match assign_participants_to_playoff_stage shuffle st with
      | .error e => .error e
      | .ok st1 => if st1.playoff_stage then validate_match_setup st1 else .ok st1

/-- `order_by(PlayoffStageMatch.round_number.desc()).first()`: the earliest
node carrying the greatest round number (a stable descending sort keeps
arrival order among ties). -/
def firstMaxRound (l : List PlayoffStageMatch) : Option PlayoffStageMatch :=
  l.foldl (fun acc n =>
    match acc with
    | none => some n
    | some b => if b.round_number < n.round_number then some n else some b) none

/-- `x if User.query.get(x) else None` as a prize cell (with `x = None`,
`User.query.get(None)` is falsy, so the else branch fires). -/
def prizeCellUser (st : TState) (x : Option Nat) : Cell :=
  match x with
  | some v => if st.users.contains v then .pval v else .empty
  | none => .empty

/-- `x if Team.query.get(x) else None` as a prize cell. -/
def prizeCellTeam (st : TState) (x : Option Nat) : Cell :=
  match x with
  | some v => if st.all_teams.contains v then .pval v else .empty
  | none => .empty

/-- Mutation of the prize-table row holding the given place. -/
def setPrizeRow (st : TState) (place : Nat) (u t : Cell) : TState :=
  { st with prize_rows := st.prize_rows.map (fun r =>
      if r.place = place then { r with user_id := u, team_id := t } else r) }

/-- `complete_tournament(tournament_id)`: under its preconditions, write the
final winner into the place-1 row and the final loser into the place-2 row;
when a semifinal produced a decided loser, write the first such loser into
the place-3 row — the source assigns it with a trailing comma, so the row
receives the 1-tuples `(id,)` / `(None,)` (`Cell.ptuple`) rather than the
id; finally set the tournament status to `completed`. -/
def complete_tournament (st : TState) : Except String TState :=
  if ¬ st.status = "ongoing" then .error "Tournament is not ongoing"
  else if ¬ st.all_matches.all
      (fun m => m.status = "completed" || m.status = "cancelled") then
    .error "Not all matches are completed"
  else if ¬ st.playoff_stage then
    .error "Tournament requires a playoff stage to determine winners"
  else if ¬ st.prize_table then .error "Prize table is not set"
  else
    match firstMaxRound (st.playoff_matches.filter (fun n => n.bracket = "winner")) with
    | none => .error "Final match is not completed or has no winner"
    | some fnode =>
      match findMatch st fnode.match_id with
      | none => .error "Final match is not completed or has no winner"
      | some fm =>
        match fm.winner_id with
        | none => .error "Final match is not completed or has no winner"
        | some w =>
          let loser : Option Nat :=
            if fm.participant2_id = some w then fm.participant1_id else fm.participant2_id
          if (st.prize_rows.find? (fun r => r.place = 1)).isNone then
            .error "AttributeError: 'NoneType' object has no attribute 'user_id'"
          else
            let st1 := setPrizeRow st 1 (prizeCellUser st (some w)) (prizeCellTeam st (some w))
            if (st1.prize_rows.find? (fun r => r.place = 2)).isNone then
              .error "AttributeError: 'NoneType' object has no attribute 'user_id'"
            else
              let st2 := setPrizeRow st1 2 (prizeCellUser st loser) (prizeCellTeam st loser)
              let semifinal_losers := (st.playoff_matches.filter (fun n =>
                  n.bracket = "winner" ∧ n.round_number = fnode.round_number - 1)).filterMap
                (fun n =>
                  match findMatch st n.match_id with
                  | none => none
                  | some m =>
                    match m.winner_id, m.participant1_id, m.participant2_id with
                    | some wi, some p1, some p2 => some (if p2 = wi then p1 else p2)
                    | _, _, _ => none)
              match semifinal_losers with
              | [] => .ok { st2 with status := "completed" }
              | third :: _ =>
                if (st2.prize_rows.find? (fun r => r.place = 3)).isNone then
                  .error "AttributeError: 'NoneType' object has no attribute 'user_id'"
                else
                  let st3 := setPrizeRow st2 3
                    (.ptuple (if st.users.contains third then some third else none))
                    (.ptuple (if st.all_teams.contains third then some third else none))
                  .ok { st3 with status := "completed" }

/-- `complete_match(tournament_id, match_id, winner_id)`.  Phases, following
the source: (1) set winner/status (zero-participant matches are cancelled
and the function returns early; one-participant matches are cancelled with
the sole participant as winner; two-participant `bo2` matches with no winner
complete as a draw; otherwise `update_match_results` completes the match
with the given winner); (2) for group matches, update both participants'
`GroupRow` counters and re-sort the standings; (3) the group-completion
check runs for every match — for playoff matches `match.group_id` is `None`,
so the filter collects all playoff matches and `complete_group_stage` is
invoked once they are all decided; (4) propagate the winner; (5) if this was
the bracket's final match and every match is decided, complete the
tournament. -/
def complete_match (shuffle : List (Option Nat) → List (Option Nat)) (st : TState)
    (match_id : Nat) (winner_id : Option Nat) : Except String TState :=
  match findMatch st match_id with
  | none => .error "Match not found"
  | some m0 =>
    if m0.status = "completed" then .error "Match is already completed"
    else if m0.participant1_id = none ∧ m0.participant2_id = none then
      if ¬ m0.group_id = none then .error "Group stage matches must have both participants"
      else .ok (updateMatch st match_id cancelOnly)
    else
      let phase1 : Except String (TState × Option Nat) :=
        if (¬ m0.participant1_id = none ∧ m0.participant2_id = none) ∨
            (¬ m0.participant2_id = none ∧ m0.participant1_id = none) then
          if ¬ m0.group_id = none then
            .error "Group stage matches must have both participants"
          else
            let w : Option Nat :=
              match m0.participant1_id with
              | some v => some v
              | none => m0.participant2_id
            .ok (updateMatch st match_id (cancelWith w), w)
        else
          if m0.format = "bo2" ∧ winner_id = none then
            .ok (updateMatch st match_id completeDraw, none)
          else
            match winner_id with
            | none => .error
                "Winner ID must be provided for matches with two participants, except for bo2 draws"
            | some w =>
              match update_match_results st match_id (some w) (some "completed") with
              | .error e => .error e
              | .ok st1 => .ok (st1, some w)
      match phase1 with
      | .error e => .error e
      | .ok (st1, wid) =>
        let phase2 : Except String TState :=
          match m0.group_id with
          | none => .ok st1
          | some gid =>
            let inner : Except String TState :=
              if m0.participant1_id = none ∨ m0.participant2_id = none then
                .error "Group stage matches must have both participants"
              else
                match st1.group_rows.find? (fun r =>
                    r.group_id = gid ∧ r.participant_id = m0.participant1_id),
                  st1.group_rows.find? (fun r =>
                    r.group_id = gid ∧ r.participant_id = m0.participant2_id) with
                | none, _ => .error "GroupRow not found for participant 1"
                | _, none => .error "GroupRow not found for participant 2"
                | some r1, some r2 =>
                  match findMatch st1 match_id with
                  | none => .error "Match not found"
                  | some m1 =>
                    let st2 :=
                      if m0.format = "bo2" ∧ wid = none ∧ m1.status = "completed" then
                        updateRow (updateRow st1 r1.id (fun r => { r with draws := r.draws + 1 }))
                          r2.id (fun r => { r with draws := r.draws + 1 })
                      else if m1.status = "completed" ∧ ¬ wid = none then
                        if wid = m0.participant1_id then
                          updateRow (updateRow st1 r1.id (fun r => { r with wins := r.wins + 1 }))
                            r2.id (fun r => { r with loses := r.loses + 1 })
                        else if wid = m0.participant2_id then
                          updateRow (updateRow st1 r1.id (fun r => { r with loses := r.loses + 1 }))
                            r2.id (fun r => { r with wins := r.wins + 1 })
                        else st1
                      else st1
                    sort_group_standings st2 gid
            match inner with
            | .error e =>
              .error ("Failed to update GroupRow statistics or sort standings: " ++ e)
            | .ok s => .ok s
        match phase2 with
        | .error e => .error e
        | .ok st2 =>
          let cascade1 : Except String TState :=
            if (st2.all_matches.filter (fun m => m.group_id = m0.group_id)).all
                (fun m => m.status = "completed" || m.status = "cancelled") then
              complete_group_stage shuffle st2
            else .ok st2
          match cascade1 with
          | .error e => .error e
          | .ok st3 =>
            let prop : Except String TState :=
              match playoffNodeOf st3 m0, wid with
              | some _, some w =>
                update_next_match_participants (st3.playoff_matches.length + 1) st3 match_id w
              | _, _ => .ok st3
            match prop with
            | .error e => .error e
            | .ok st4 =>
              match playoffNodeOf st4 m0 with
              | none => .ok st4
              | some pm =>
                match firstMaxRound (st4.playoff_matches.filter
                    (fun n => n.bracket = "winner")) with
                | none => .ok st4
                | some fnode =>
                  if fnode.id = pm.id then
                    if st4.all_matches.all
                        (fun m => m.status = "completed" || m.status = "cancelled") then
                      complete_tournament st4
                    else .ok st4
                  else .ok st4

/-- `complete_map(tournament_id, match_id, map_id, winner_id)`: record the
map winner (forced to the sole participant when the match has only one),
bump the corresponding score, and — only once every map of the match has a
recorded winner — decide the match: a 1-1 `bo2` is a draw, otherwise the
participant with score strictly greater than `N // 2` wins. -/
def complete_map (shuffle : List (Option Nat) → List (Option Nat)) (st : TState)
    (match_id map_id : Nat) (winner_id : Option Nat) : Except String TState :=
  match findMatch st match_id with
  | none => .error "Match not found"
  | some m =>
    if ¬ (m.status = "ongoing" ∨ m.status = "scheduled") then
      .error "Match must be in 'ongoing' or 'scheduled' status"
    else
      match st.maps.find? (fun mp => mp.id = map_id) with
      | none => .error "Map not found or does not belong to the match"
      | some mp =>
        if ¬ mp.match_id = match_id then
          .error "Map not found or does not belong to the match"
        else if ¬ mp.winner_id = none then .error "Map already completed"
        else
          let wE : Except String (Option Nat) :=
            if (¬ m.participant1_id = none ∧ m.participant2_id = none) ∨
                (¬ m.participant2_id = none ∧ m.participant1_id = none) then
              .ok (match m.participant1_id with
                   | some v => some v
                   | none => m.participant2_id)
            else
              match winner_id with
              | none => .ok none
              | some w =>
                if ¬ isKnownParticipant st w then .error "Winner not found"
                else if ¬ (some w = m.participant1_id ∨ some w = m.participant2_id) then
                  .error "Winner must be one of the match participants"
                else .ok (some w)
          match wE with
          | .error e => .error e
          | .ok w =>
            -- `winner_id == match.participant1_id` below is Python `==`:
            -- `None == None` is true, so a draw on a match with a missing
            -- slot bumps that slot's score
            let st1 := { st with maps := st.maps.map (setMapWinner map_id w) }
            let st2 := updateMatch st1 match_id (mapScoreUpd w)
            match findMatch st2 match_id with
            | none => .ok st2
            | some m2 =>
              if (st2.maps.filter (fun q => q.match_id = match_id)).all
                  (fun q => ¬ q.winner_id = none) then
                if startsWithBo m2.format then
                  match boNum? m2.format with
                  | none => .error "invalid literal for int() with base 10"
                  | some num_maps =>
                    if m2.format = "bo2" ∧ m2.participant1_score = 1 ∧
                        m2.participant2_score = 1 then
                      complete_match shuffle st2 match_id none
                    else if num_maps / 2 < m2.participant1_score then
                      complete_match shuffle st2 match_id m2.participant1_id
                    else if num_maps / 2 < m2.participant2_score then
                      complete_match shuffle st2 match_id m2.participant2_id
                    else if ¬ m2.participant1_id = none ∧ m2.participant2_id = none then
                      complete_match shuffle st2 match_id m2.participant1_id
                    else if ¬ m2.participant2_id = none ∧ m2.participant1_id = none then
                      complete_match shuffle st2 match_id m2.participant2_id
                    else .ok st2
                else .ok st2
              else .ok st2

/-- Number of matches the generator has created before round `r` starts:
round 1 creates `slots/2` matches and each later round half of the previous
one, so rounds `1..r-1` create `slots - slots/2^(r-1)` matches in total
(exact for `slots` a power of two). -/
def roundOff (slots r : Nat) : Nat := slots - slots / 2 ^ (r - 1)

/-- One bracket node as created by `generate_single_elimination_bracket` for
round `r`, index `i`: database ids are modelled by `idBase +` creation
index.  The wiring loop of the source gives node `i` of round `r` the
dependencies `2i` and `2i+1` of round `r-1` (round-1 nodes have none). -/
def mkNode (slots idBase r i : Nat) : PlayoffStageMatch :=
  { id := idBase + roundOff slots r + i,
    match_id := idBase + roundOff slots r + i,
    round_number := r,
    bracket := "winner",
    depends_on_match_1_id :=
      if r = 1 then none else some (idBase + roundOff slots (r - 1) + 2 * i),
    depends_on_match_2_id :=
      if r = 1 then none else some (idBase + roundOff slots (r - 1) + 2 * i + 1) }

/-- The bracket nodes, in creation order (round 1 first). -/
def bracketNodes (slots rounds idBase : Nat) : List PlayoffStageMatch :=
  (List.range' 1 rounds).flatMap (fun r =>
    (List.range (slots / 2 ^ r)).map (mkNode slots idBase r))

/-- One bracket match for round `r`, index `i`, numbered sequentially from
the caller-supplied `match_start_idx` (`numBase`).  A `bo2` regular format
is downgraded to `bo1` (also for the final, by the source's
conditional-expression grouping); otherwise non-final rounds use the
regular format and the final round the final format. -/
def mkBracketMatch (mf ff : String) (slots rounds idBase numBase r i : Nat) : MatchRec :=
  { id := idBase + roundOff slots r + i,
    participant1_id := none,
    participant2_id := none,
    participant1_score := 0,
    participant2_score := 0,
    winner_id := none,
    status := "scheduled",
    format :=
      if r = 1 then (if mf = "bo2" then "bo1" else mf)
      else if mf = "bo2" then "bo1"
      else if r < rounds then mf
      else ff,
    group_id := none,
    playoff_match_id := some (idBase + roundOff slots r + i),
    number := numBase + roundOff slots r + i }

/-- The matches of `generate_single_elimination_bracket`, creation order. -/
def bracketMatches (mf ff : String) (slots rounds idBase numBase : Nat) : List MatchRec :=
  (List.range' 1 rounds).flatMap (fun r =>
    (List.range (slots / 2 ^ r)).map (mkBracketMatch mf ff slots rounds idBase numBase r))

/-- `generate_single_elimination_bracket(tournament_id, participants,
match_start_idx)`: requires an open tournament with no playoff stage and at
least 2 participants; creates the full power-of-two skeleton without
assigning participants. -/
def generate_single_elimination_bracket (st : TState) (participants : List (Option Nat))
    (match_start_idx : Nat) : Except String TState :=
  if ¬ st.status = "open" then
    .error "Tournament must be in open status to create playoff stage"
  else if st.playoff_stage then .error "Playoff stage already exists"
  else if participants.length < 2 then
    .error "At least 2 participants are required for playoff stage"
  else
    let rounds := ceilLog2 participants.length
    let num_slots := 2 ^ rounds
    .ok { st with
            playoff_stage := true,
            playoff_matches := st.playoff_matches ++ bracketNodes num_slots rounds st.next_id,
            all_matches := st.all_matches ++
              bracketMatches st.match_format st.final_format num_slots rounds st.next_id
                match_start_idx,
            next_id := st.next_id + (num_slots - 1) }

set_option linter.unusedVariables false in
/-- `make_group(groupstage_id, letter, max_participants, participants,
is_team)`: create a group and one placeholder `GroupRow` per slice entry.
Both branches of the source's `None if not is_team else None` yield `None`,
so every placeholder row has no participant regardless of `is_team`. -/
def make_group (st : TState) (letter : String) (max_participants : Nat)
    (participants : List (Option Nat)) (is_team : Bool) : Except String TState :=
  if st.group_stage.isNone then .error "Group stage not found"
  else if ¬ (st.groups.find? (fun g => g.letter = letter)).isNone then
    .error "Group already exists in this group stage"
  else if max_participants < 2 then .error "Group must allow at least 2 participants"
  else
    let gid := st.next_id
    .ok { st with
            groups := st.groups ++
              [{ id := gid, letter := letter, max_participants := max_participants,
                 members := [] }],
            group_rows := st.group_rows ++ (List.range participants.length).map (fun i =>
              { id := gid + 1 + i, group_id := gid, participant_id := none,
                place := 0, wins := 0, draws := 0, loses := 0 }),
            next_id := gid + 1 + participants.length }

/-- `make_group_stage(tournament_id, num_groups, max_participants_per_group,
participants, winners_bracket_qualified)`: validations, then groups 'A',
'B', … fed with the source's (overlapping, remainder-shifted) slices of the
participant list. -/
def make_group_stage (st : TState) (num_groups max_ppg : Nat)
    (participants : List (Option Nat)) (wbq : Nat) : Except String TState :=
  if ¬ st.status = "open" then
    .error "Tournament must be in open status to create group stage"
  else if ¬ st.group_stage.isNone then .error "Group stage already exists"
  else if participants.length < num_groups * 2 then
    .error "Not enough participants for the number of groups"
  else if num_groups < 1 ∨ max_ppg < 2 then
    .error "Invalid number of groups or participants per group"
  else
    let ppg := participants.length / num_groups
    let remainder := participants.length % num_groups
    if max_ppg < ppg then .error "Too many participants for the specified group size"
    else
      let st0 := { st with group_stage := some { winners_bracket_qualified := wbq } }
      (List.range num_groups).foldlM (fun s i =>
        let start := i * ppg
        let stop := start + ppg + (if i < remainder then 1 else 0)
        make_group s (String.mk [Char.ofNat (65 + i)]) max_ppg
          ((participants.drop start).take (stop - start)) (st.type = "team")) st0

/-- Check an optional id against a failing predicate (`None` passes). -/
def optBad (p : Nat → Bool) : Option Nat → Bool
  | some x => p x
  | none => false

/-- `create_match(...)`: validations, then a fresh `scheduled` match.  The
source's `type`/`is_playoff` columns play no further role and are dropped. -/
def create_match (st : TState) (participant1_id participant2_id : Option Nat)
    (group_id playoff_match_id : Option Nat) (format : String) (number : Nat) :
    Except String TState :=
  if ¬ group_id = none ∧ ¬ playoff_match_id = none then
    .error "Match cannot belong to both group and playoff stages"
  else if optBad (fun g => (st.groups.find? (fun x => x.id = g)).isNone) group_id then
    .error "Group not found"
  else if optBad (fun p => (findNode st p).isNone) playoff_match_id then
    .error "Playoff match not found"
  else if optBad (fun p => ! isKnownParticipant st p) participant1_id then
    .error "Participant 1 not found"
  else if optBad (fun p => ! isKnownParticipant st p) participant2_id then
    .error "Participant 2 not found"
  else
    .ok { st with
            all_matches := st.all_matches ++
              [{ id := st.next_id, participant1_id := participant1_id,
                 participant2_id := participant2_id, participant1_score := 0,
                 participant2_score := 0, winner_id := none, status := "scheduled",
                 format := format, group_id := group_id,
                 playoff_match_id := playoff_match_id, number := number }],
            next_id := st.next_id + 1 }

/-- `create_group_stage_matches(tournament_id, participants, format_)`: for
every group, `max_participants * (max_participants - 1) / 2` participantless
matches, numbered globally from 1. -/
def create_group_stage_matches (st : TState) (format : String) : Except String TState :=
  if st.group_stage.isNone then .error "Tournament does not have a group stage"
  else if st.groups.isEmpty then .error "No groups found in group stage"
  else
    let step : TState × Nat → GroupRec → Except String (TState × Nat) := fun acc g =>
      let num := g.max_participants * (g.max_participants - 1) / 2
      if num < 1 then Except.ok acc
      else
        (List.range num).foldlM (fun (a : TState × Nat) (_ : Nat) =>
          match create_match a.1 none none (some g.id) none format a.2 with
          | .error e => Except.error e
          | .ok s => Except.ok (s, a.2 + 1)) acc
    match st.groups.foldlM step (st, 1) with
    | .error e => .error ("Failed to create group stage matches: " ++ (e : String))
    | .ok (s, _) => .ok s

/-- `create_prizetable(tournament_id)`. -/
def create_prizetable (st : TState) : Except String TState :=
  if st.prize_table then .error "Prize table already exists"
  else if st.status = "completed" then
    .error "Cannot create prize table for completed tournament"
  else .ok { st with prize_table := true }

/-- `create_prizetable_row(tournament_id, place, user_id, team_id, prize)`.
The tournament's `prize_fund` string is always non-empty, so the Python
truthiness test on it reduces to the `> 0` comparison. -/
def create_prizetable_row (st : TState) (place : Nat) (user_id team_id : Option Nat)
    (prize : Rat) : Except String TState :=
  if ¬ st.prize_table then .error "Prize table does not exist"
  else if ¬ (st.prize_rows.find? (fun r => r.place = place)).isNone then
    .error "Prize table row for place already exists"
  else if ¬ user_id = none ∧ ¬ team_id = none then
    .error "Cannot assign both user and team to prize table row"
  else if optBad (fun u => ! st.users.contains u) user_id then
    .error "User not found"
  else if optBad (fun u => ! st.participants.contains u) user_id then
    .error "User is not a participant in the tournament"
  else if optBad (fun t => ! st.all_teams.contains t) team_id then
    .error "Team not found"
  else if optBad (fun t => ! st.teams.contains t) team_id then
    .error "Team is not a participant in the tournament"
  else if prize < 0 ∨ (0 < st.prize_fund ∧ st.prize_fund < prize) then
    .error "Invalid prize amount"
  else
    .ok { st with
            prize_rows := st.prize_rows ++
              [{ place := place,
                 user_id := match user_id with | some u => .pval u | none => .empty,
                 team_id := match team_id with | some t => .pval t | none => .empty,
                 prize := prize }] }

/-- Python truthiness of an optional integer: `None` and `0` are falsy. -/
def truthyNat : Option Nat → Bool
  | some n => ¬ n = 0
  | none => false

/-- `create_tournament(...)`: validations, then construction of the prize
table (with default 50/30/20 rows when a positive prize fund is given), the
group-stage skeleton and/or the playoff skeleton.  The scheduling record
`scheduled` is only assigned inside `if status == "open"`, yet
`db.session.add(scheduled)` runs unconditionally, so every accepted
non-open status that survives construction raises `UnboundLocalError`.
`Game`/`User` lookups are modelled by the `game_exists`/`creator_exists`
flags and the game's `type` string; the session starts from an empty
tournament state. -/
def create_tournament_build (game_exists : Bool) (game_type : String) (creator_exists : Bool)
    (max_participants : Nat) (prize_fund : Option Rat) (status : String)
    (has_group_stage has_playoff : Bool) (num_groups max_participants_per_group : Option Nat)
    (playoff_ppcg : Nat) (format_ final_format_ : String) : Except String TState :=
  if ¬ game_exists then .error "Game not found"
  else if ¬ creator_exists then .error "Creator not found"
  else if max_participants < 2 then .error "Tournament must allow at least 2 participants"
  else if ¬ (status = "open" ∨ status = "active" ∨ status = "completed" ∨
      status = "cancelled") then
    .error "Invalid tournament status"
  else if (has_group_stage ∧ (¬ truthyNat num_groups = true ∨
      ¬ truthyNat max_participants_per_group = true ∨ playoff_ppcg = 0)) then
    .error "num_groups, max_participants_per_group, and playoff_participants_count_per_group are required for group stage tournaments"
  else if (has_group_stage ∧ (num_groups.getD 0 < 1 ∨ max_participants_per_group.getD 0 < 2)) then
    .error "Invalid number of groups or participants per group"
  else if (has_group_stage ∧ max_participants < num_groups.getD 0 * 2) then
    .error "max_participants too low for the number of groups"
  else if (has_group_stage ∧ (playoff_ppcg < 2 ∨
      num_groups.getD 0 * max_participants_per_group.getD 0 < playoff_ppcg)) then
    .error "Invalid playoff_participants_count_per_group"
  else if (match prize_fund with | some f => decide (f < 0) | none => false) then
    .error "Prize fund cannot be negative"
  else
    let st0 : TState :=
      { status := status, type := game_type, users := [], all_teams := [],
        participants := [], teams := [], max_players := max_participants,
        match_format := format_, final_format := final_format_,
        prize_fund := match prize_fund with | some f => f | none => 0,
        prize_table := false, prize_rows := [], group_stage := none, groups := [],
        group_rows := [], playoff_stage := false, playoff_matches := [],
        all_matches := [], maps := [], next_id := 1 }
    match create_prizetable st0 with
    | .error e => .error e
    | .ok st1 =>
      let rowsE : Except String TState :=
        match prize_fund with
        | some f =>
          if 0 < f then
            match create_prizetable_row st1 1 none none (f * (1 / 2)) with
            | .error e => .error e
            | .ok s1 =>
              match create_prizetable_row s1 2 none none (f * (3 / 10)) with
              | .error e => .error e
              | .ok s2 => create_prizetable_row s2 3 none none (f * (1 / 5))
          else .ok st1
        | none => .ok st1
      match rowsE with
      | .error e => .error e
      | .ok st2 =>
        let groupE : Except String TState :=
          if has_group_stage then
            match make_group_stage st2 (num_groups.getD 0) (max_participants_per_group.getD 0)
                (List.replicate max_participants none) playoff_ppcg with
            | .error e => .error e
            | .ok s => create_group_stage_matches s s.match_format
          else .ok st2
        match groupE with
        | .error e => .error e
        | .ok st3 =>
          let playoffE : Except String TState :=
            if has_playoff then
              let count := if has_group_stage then num_groups.getD 0 * playoff_ppcg
                else max_participants
              let match_start_idx := if has_group_stage then
                num_groups.getD 0 * max_participants_per_group.getD 0 *
                  (max_participants_per_group.getD 0 - 1) / 2 + 1
                else 1
              generate_single_elimination_bracket st3 (List.replicate count none)
                match_start_idx
            else .ok st3
          playoffE

/-- `create_tournament(...)` proper: the validation/construction prefix
(`create_tournament_build`), then the unconditional
`db.session.add(scheduled)`, where `scheduled` was only assigned under
`if status == "open"`. -/
def create_tournament (game_exists : Bool) (game_type : String) (creator_exists : Bool)
    (max_participants : Nat) (prize_fund : Option Rat) (status : String)
    (has_group_stage has_playoff : Bool) (num_groups max_participants_per_group : Option Nat)
    (playoff_ppcg : Nat) (format_ final_format_ : String) : Except String TState :=
  match create_tournament_build game_exists game_type creator_exists max_participants
      prize_fund status has_group_stage has_playoff num_groups max_participants_per_group
      playoff_ppcg format_ final_format_ with
  | .error e => .error e
  | .ok st4 =>
    if ¬ status = "open" then
      .error "UnboundLocalError: local variable 'scheduled' referenced before assignment"
    else .ok st4

/-! ### Generic helper lemmas -/

theorem find?_map_of_pred {α : Type} (l : List α) (g : α → α) (p : α → Bool)
    (hp : ∀ x, p (g x) = p x) :
    (l.map g).find? p = (l.find? p).map g := by
  rw [List.find?_map]
  have hpg : p ∘ g = p := funext fun x => hp x
  rw [hpg]

theorem findMatch_updateMatch (st : TState) (i : Nat) (f : MatchRec → MatchRec)
    (hf : ∀ m, (f m).id = m.id) (j : Nat) :
    findMatch (updateMatch st i f) j =
      (findMatch st j).map (fun m => if m.id = i then f m else m) := by
  unfold findMatch updateMatch
  apply find?_map_of_pred
  intro x
  by_cases h : x.id = i <;> simp [h, hf]

/-- A concrete baseline state used by the witnesses. -/
def baseState : TState :=
  { status := "ongoing", type := "solo", users := [1, 2, 3, 4], all_teams := [],
    participants := [1, 2, 3, 4], teams := [], max_players := 4,
    match_format := "bo1", final_format := "bo1", prize_fund := 0,
    prize_table := true, prize_rows := [], group_stage := none, groups := [],
    group_rows := [], playoff_stage := true, playoff_matches := [],
    all_matches := [], maps := [], next_id := 100 }

/-! ### C7 -/

/-- C7: for every tournament whose status is not `open`, `reset_tournament`
restores status `open` and removes the group stage, playoff stage, matches,
maps and prize table, while the registered participants and teams lists are
unchanged. -/
theorem c7_reset_tournament (st : TState) (h : ¬ st.status = "open") :
    ∃ st2, reset_tournament st = .ok st2 ∧
      st2.status = "open" ∧
      st2.group_stage = none ∧ st2.groups = [] ∧ st2.group_rows = [] ∧
      st2.playoff_stage = false ∧ st2.playoff_matches = [] ∧
      st2.all_matches = [] ∧ st2.maps = [] ∧
      st2.prize_table = false ∧ st2.prize_rows = [] ∧
      st2.participants = st.participants ∧ st2.teams = st.teams := by
  have hres : reset_tournament st = .ok
      { st with
          status := "open", group_stage := none, groups := [], group_rows := [],
          playoff_stage := false, playoff_matches := [], all_matches := [],
          maps := [], prize_table := false, prize_rows := [] } := by
    simp only [reset_tournament, if_neg h]
  exact ⟨_, hres, rfl, rfl, rfl, rfl, rfl, rfl, rfl, rfl, rfl, rfl, rfl, rfl⟩

theorem c7_reset_tournament_witness :
    ¬ baseState.status = "open" ∧
      ∃ st2, reset_tournament baseState = .ok st2 ∧
        st2.status = "open" ∧
        st2.group_stage = none ∧ st2.groups = [] ∧ st2.group_rows = [] ∧
        st2.playoff_stage = false ∧ st2.playoff_matches = [] ∧
        st2.all_matches = [] ∧ st2.maps = [] ∧
        st2.prize_table = false ∧ st2.prize_rows = [] ∧
        st2.participants = baseState.participants ∧ st2.teams = baseState.teams :=
  ⟨by decide, c7_reset_tournament baseState (by decide)⟩

/-! ### C8 -/

theorem placeUpd_group_id (S : List (Nat × Nat × Nat)) (gid : Nat) (r : GroupRow) :
    (placeUpd S gid r).group_id = r.group_id := by
  unfold placeUpd; split <;> rfl

theorem rowKey_placeUpd (S : List (Nat × Nat × Nat)) (gid : Nat) (r : GroupRow) :
    rowKey (placeUpd S gid r) = rowKey r := by
  unfold placeUpd rowKey; split <;> rfl

theorem placeUpd_idem (S : List (Nat × Nat × Nat)) (gid : Nat) (r : GroupRow) :
    placeUpd S gid (placeUpd S gid r) = placeUpd S gid r := by
  unfold placeUpd
  by_cases h : r.group_id = gid <;> simp [h]

theorem filter_map_placeUpd (S : List (Nat × Nat × Nat)) (gid : Nat) (l : List GroupRow) :
    (l.map (placeUpd S gid)).filter (fun r => r.group_id = gid) =
      (l.filter (fun r => r.group_id = gid)).map (placeUpd S gid) := by
  rw [List.filter_map]
  have hp : ((fun r => decide (r.group_id = gid)) ∘ placeUpd S gid) =
      (fun r : GroupRow => decide (r.group_id = gid)) := by
    funext r
    simp [Function.comp, placeUpd_group_id]
  rw [hp]

/-- C8: `sort_group_standings` is idempotent: after one recomputation, an
immediate second recomputation (with no intervening writes to the counters)
returns the same state — in particular identical `place` assignments —
including when rows are tied on both points and wins. -/
theorem c8_sort_group_standings_idempotent (st : TState) (gid : Nat) (st1 : TState)
    (h : sort_group_standings st gid = .ok st1) :
    sort_group_standings st1 gid = .ok st1 := by
  simp only [sort_group_standings] at h ⊢
  split at h
  · exact Except.noConfusion h
  · rename_i g0 hg
    split at h
    · exact Except.noConfusion h
    · rename_i hne
      injection h with h1
      subst h1
      dsimp only
      rw [hg]
      rw [filter_map_placeUpd]
      have hkeys :
          ((st.group_rows.filter (fun r => r.group_id = gid)).map
              (placeUpd (stableSort standingsGe
                ((st.group_rows.filter (fun r => r.group_id = gid)).map rowKey)) gid)).map
            rowKey =
          (st.group_rows.filter (fun r => r.group_id = gid)).map rowKey := by
        rw [List.map_map]
        exact List.map_congr_left (fun r _ => rowKey_placeUpd _ _ _)
      have hempty :
          (((st.group_rows.filter (fun r => r.group_id = gid)).map
              (placeUpd (stableSort standingsGe
                ((st.group_rows.filter (fun r => r.group_id = gid)).map rowKey)) gid)).isEmpty) =
          ((st.group_rows.filter (fun r => r.group_id = gid)).isEmpty) := by
        cases st.group_rows.filter (fun r => r.group_id = gid) <;> rfl
      rw [hempty, if_neg hne, hkeys, List.map_map]
      have hmm : st.group_rows.map
          ((placeUpd (stableSort standingsGe
              ((st.group_rows.filter (fun r => r.group_id = gid)).map rowKey)) gid) ∘
            (placeUpd (stableSort standingsGe
              ((st.group_rows.filter (fun r => r.group_id = gid)).map rowKey)) gid)) =
          st.group_rows.map
            (placeUpd (stableSort standingsGe
              ((st.group_rows.filter (fun r => r.group_id = gid)).map rowKey)) gid) :=
        List.map_congr_left (fun r _ => placeUpd_idem _ _ _)
      rw [hmm]

/-- Concrete two-row group with both rows tied on points and wins. -/
def c8Before : TState :=
  { baseState with
      groups := [{ id := 5, letter := "A", max_participants := 2, members := [1, 2] }],
      group_rows := [
        { id := 21, group_id := 5, participant_id := some 1, place := 0,
          wins := 1, draws := 0, loses := 1 },
        { id := 22, group_id := 5, participant_id := some 2, place := 0,
          wins := 1, draws := 0, loses := 1 }] }

/-- `c8Before` after one standings recomputation: stable tie-break keeps
query order, places 1 and 2. -/
def c8After : TState :=
  { baseState with
      groups := [{ id := 5, letter := "A", max_participants := 2, members := [1, 2] }],
      group_rows := [
        { id := 21, group_id := 5, participant_id := some 1, place := 1,
          wins := 1, draws := 0, loses := 1 },
        { id := 22, group_id := 5, participant_id := some 2, place := 2,
          wins := 1, draws := 0, loses := 1 }] }

theorem c8_sort_group_standings_idempotent_witness :
    sort_group_standings c8Before 5 = .ok c8After ∧
      sort_group_standings c8After 5 = .ok c8After := by
  have h1 : sort_group_standings c8Before 5 = .ok c8After := by rfl
  exact ⟨h1, c8_sort_group_standings_idempotent c8Before 5 c8After h1⟩

/-! ### C10 -/

/-- C10 counterexample: with the default `has_playoff=True`, an accepted
non-open status (`"active"`) makes `create_tournament` fail inside
`generate_single_elimination_bracket` (which refuses a non-open tournament),
so execution never reaches `db.session.add(scheduled)`: the raised error is
the playoff-stage one, not the unbound-variable one the claim describes. -/
theorem c10_counterexample :
    create_tournament true "solo" true 32 none "active" false true none none 8 "bo1" "bo3" =
      .error "Tournament must be in open status to create playoff stage" ∧
    ¬ create_tournament true "solo" true 32 none "active" false true none none 8 "bo1" "bo3" =
      .error "UnboundLocalError: local variable 'scheduled' referenced before assignment" := by
  have h1 : create_tournament true "solo" true 32 none "active" false true none none 8
      "bo1" "bo3" = .error "Tournament must be in open status to create playoff stage" := rfl
  refine ⟨h1, fun heq => ?_⟩
  injection h1.symm.trans heq with h2
  exact absurd h2 (by decide)

/-- C10 amended: every `create_tournament` call whose status argument is not
`"open"` raises an error and returns no tournament: a status outside the
accepted list — including the declared default `"setup"` — is rejected with
`ValueError("Invalid tournament status")` (when the game/creator/size checks
pass), and an accepted non-open status fails later — in prize-table creation
for `"completed"`, in stage creation when a group or playoff stage is
requested, and otherwise at `db.session.add(scheduled)` where the local
`scheduled` was never assigned.  Only `status="open"` can complete
successfully. -/
theorem c10_create_tournament_rejects_non_open (ge ce : Bool) (gt : String) (mp : Nat)
    (pf : Option Rat) (status : String) (hgs hp : Bool) (ng mppg : Option Nat)
    (ppcg : Nat) (f ff : String) (h : ¬ status = "open") :
    (create_tournament ge gt ce mp pf status hgs hp ng mppg ppcg f ff).isOk = false ∧
    (ge = true → ce = true → 2 ≤ mp → ¬ status = "active" → ¬ status = "completed" →
      ¬ status = "cancelled" →
      create_tournament ge gt ce mp pf status hgs hp ng mppg ppcg f ff =
        .error "Invalid tournament status") := by
  constructor
  · simp only [create_tournament]
    cases hb : create_tournament_build ge gt ce mp pf status hgs hp ng mppg ppcg f ff with
    | error e => rfl
    | ok st4 =>
      simp [if_pos h]
      rfl
  · intro hge hce hmp h1 h2 h3
    have hlt : ¬ mp < 2 := by omega
    have hb : create_tournament_build ge gt ce mp pf status hgs hp ng mppg ppcg f ff =
        .error "Invalid tournament status" := by
      simp only [create_tournament_build, hge, hce]
      rw [if_neg (by simp), if_neg (by simp), if_neg hlt,
        if_pos (by simp [h, h1, h2, h3])]
    simp [create_tournament, hb]

theorem c10_create_tournament_rejects_non_open_witness :
    ¬ "setup" = "open" ∧
      ((create_tournament true "solo" true 32 none "setup" false true none none 8
          "bo1" "bo3").isOk = false ∧
       (true = true → true = true → 2 ≤ 32 → ¬ "setup" = "active" → ¬ "setup" = "completed" →
        ¬ "setup" = "cancelled" →
        create_tournament true "solo" true 32 none "setup" false true none none 8 "bo1" "bo3" =
          .error "Invalid tournament status")) :=
  ⟨by decide, c10_create_tournament_rejects_non_open true true "solo" 32 none "setup"
    false true none none 8 "bo1" "bo3" (by decide)⟩

/-! ### C3 -/

theorem ceilLog2_pos (n : Nat) (h : 2 ≤ n) : 1 ≤ ceilLog2 n := by
  obtain ⟨k, rfl⟩ : ∃ k, n = k + 2 := ⟨n - 2, by omega⟩
  show 1 ≤ ceilLog2Aux (k + 2) (k + 2)
  rw [show ceilLog2Aux (k + 2) (k + 2) =
    if k + 2 ≤ 1 then 0 else ceilLog2Aux (k + 1) ((k + 2 + 1) / 2) + 1 from rfl]
  rw [if_neg (by omega)]
  omega

theorem sum_map_ite_eq (l : List Nat) (hnd : l.Nodup) (r : Nat) (hr : r ∈ l)
    (h : Nat → Nat) :
    (l.map (fun x => if x = r then h x else 0)).sum = h r := by
  induction l with
  | nil => cases hr
  | cons a l ih =>
    rw [List.map_cons, List.sum_cons]
    by_cases ha : a = r
    · rw [if_pos ha]
      have hz : (l.map (fun x => if x = r then h x else 0)).sum = 0 := by
        apply List.sum_eq_zero
        intro x hx
        rcases List.mem_map.mp hx with ⟨y, hy, rfl⟩
        have hyr : ¬ y = r := by
          intro heq
          rw [heq, ← ha] at hy
          exact (List.nodup_cons.mp hnd).1 hy
        rw [if_neg hyr]
      rw [hz, ha, Nat.add_zero]
    · rw [if_neg ha]
      have hmem : r ∈ l := by
        rcases List.mem_cons.mp hr with heq | hm
        · exact absurd heq.symm ha
        · exact hm
      rw [ih (List.nodup_cons.mp hnd).2 hmem, Nat.zero_add]

theorem sum_halves (R : Nat) :
    ((List.range' 1 R).map (fun r => 2 ^ R / 2 ^ r)).sum = 2 ^ R - 1 := by
  induction R with
  | zero => rfl
  | succ R ih =>
    rw [List.range'_concat, show 1 + 1 * R = R + 1 from by omega, List.map_append,
      List.sum_append]
    have hlast : (([R + 1].map (fun r => 2 ^ (R + 1) / 2 ^ r)).sum) = 1 := by
      rw [List.map_cons, List.map_nil, List.sum_cons, List.sum_nil, Nat.add_zero,
        Nat.div_self (pow_pos (by omega : (0:Nat) < 2) (R + 1))]
    have hfirst : ((List.range' 1 R).map (fun r => 2 ^ (R + 1) / 2 ^ r)) =
        ((List.range' 1 R).map (fun r => 2 * (2 ^ R / 2 ^ r))) := by
      apply List.map_congr_left
      intro r hrm
      have hrR : r ≤ R := by
        have := (List.mem_range'_1.mp hrm).2
        omega
      rw [Nat.pow_succ, Nat.mul_comm (2 ^ R) 2]
      exact Nat.mul_div_assoc 2 (pow_dvd_pow 2 hrR)
    rw [hfirst, List.sum_map_mul_left, ih, hlast]
    have h1 : 1 ≤ 2 ^ R := Nat.one_le_two_pow
    rw [Nat.pow_succ]
    omega

theorem bracketNodes_length (R idBase : Nat) :
    (bracketNodes (2 ^ R) R idBase).length = 2 ^ R - 1 := by
  unfold bracketNodes
  rw [List.length_flatMap]
  simp only [Function.comp_def, List.length_map, List.length_range]
  exact sum_halves R

theorem bracketNodes_countP (R idBase r : Nat) (h1 : 1 ≤ r) (h2 : r ≤ R) :
    (bracketNodes (2 ^ R) R idBase).countP (fun n => n.round_number = r) = 2 ^ R / 2 ^ r := by
  unfold bracketNodes
  rw [List.countP_flatMap]
  have hpt : (List.range' 1 R).map
      (List.countP (fun n => decide (n.round_number = r)) ∘ fun r' =>
        (List.range (2 ^ R / 2 ^ r')).map (mkNode (2 ^ R) idBase r')) =
      (List.range' 1 R).map (fun r' => if r' = r then 2 ^ R / 2 ^ r' else 0) := by
    apply List.map_congr_left
    intro r' _
    simp only [Function.comp, List.countP_map]
    by_cases hrr : r' = r
    · subst hrr
      rw [if_pos rfl]
      have hall : List.countP ((fun n => decide (n.round_number = r')) ∘ mkNode (2 ^ R) idBase r')
          (List.range (2 ^ R / 2 ^ r')) = (List.range (2 ^ R / 2 ^ r')).length :=
        List.countP_eq_length.mpr (fun i _ => by simp [Function.comp, mkNode])
      rw [hall, List.length_range]
    · rw [if_neg hrr, List.countP_eq_length_filter]
      have hnil : List.filter ((fun n => decide (n.round_number = r)) ∘ mkNode (2 ^ R) idBase r')
          (List.range (2 ^ R / 2 ^ r')) = [] :=
        List.filter_eq_nil_iff.mpr (fun i _ => by simp [Function.comp, mkNode, hrr])
      rw [hnil]
      rfl
  rw [hpt]
  exact sum_map_ite_eq _ (List.nodup_range' _ _) r
    (List.mem_range'_1.mpr ⟨h1, by omega⟩) _

theorem bracketNodes_round_bounds (R idBase : Nat) (n : PlayoffStageMatch)
    (hn : n ∈ bracketNodes (2 ^ R) R idBase) :
    1 ≤ n.round_number ∧ n.round_number ≤ R := by
  unfold bracketNodes at hn
  rcases List.mem_flatMap.mp hn with ⟨r, hr, hin⟩
  rcases List.mem_map.mp hin with ⟨i, _, rfl⟩
  have hb := List.mem_range'_1.mp hr
  simp only [mkNode]
  omega

theorem c3_generate_single_elimination_bracket (st : TState)
    (participants : List (Option Nat)) (idx : Nat) (st' : TState)
    (h2 : 2 ≤ participants.length) (hopen : st.status = "open")
    (hnps : st.playoff_stage = false) (hempty : st.playoff_matches = [])
    (hok : generate_single_elimination_bracket st participants idx = .ok st') :
    st'.playoff_matches.length = nextPow2 participants.length - 1 ∧
    (∀ r, 1 ≤ r → r ≤ ceilLog2 participants.length →
      st'.playoff_matches.countP (fun n => n.round_number = r) =
        nextPow2 participants.length / 2 ^ r) ∧
    st'.playoff_matches.countP (fun n => n.round_number = 1) =
      nextPow2 participants.length / 2 ∧
    (∀ r, 1 ≤ r → r < ceilLog2 participants.length →
      st'.playoff_matches.countP (fun n => n.round_number = r + 1) =
        st'.playoff_matches.countP (fun n => n.round_number = r) / 2) ∧
    st'.playoff_matches.countP
      (fun n => n.round_number = ceilLog2 participants.length) = 1 ∧
    (∀ n ∈ st'.playoff_matches,
      1 ≤ n.round_number ∧ n.round_number ≤ ceilLog2 participants.length) ∧
    Nat.log 2 (nextPow2 participants.length) = ceilLog2 participants.length := by
  simp only [generate_single_elimination_bracket] at hok
  rw [if_neg (by simp [hopen])] at hok
  rw [if_neg (by simp [hnps])] at hok
  rw [if_neg (by omega)] at hok
  injection hok with hok1
  subst hok1
  dsimp only
  rw [hempty, List.nil_append]
  have hR1 : 1 ≤ ceilLog2 participants.length := ceilLog2_pos _ h2
  refine ⟨bracketNodes_length _ _, fun r hr1 hr2 => bracketNodes_countP _ _ _ hr1 hr2,
    bracketNodes_countP _ _ _ le_rfl hR1, ?_, ?_, bracketNodes_round_bounds _ _, ?_⟩
  · intro r hr1 hr2
    rw [bracketNodes_countP _ _ _ (by omega) (by omega),
      bracketNodes_countP _ _ _ hr1 (by omega)]
    rw [Nat.div_div_eq_div_mul, ← Nat.pow_succ]
  · rw [bracketNodes_countP _ _ _ hR1 le_rfl]
    exact Nat.div_self (Nat.pos_pow_of_pos _ (by omega))
  · exact Nat.log_pow (by omega) _

def c3Start : TState := { baseState with status := "open", playoff_stage := false }

/-- `c3Start` after generating a bracket for 5 participants: a size-8
skeleton of 7 matches over 3 rounds. -/
def c3Result : TState :=
  { c3Start with
      playoff_stage := true,
      playoff_matches := bracketNodes 8 3 100,
      all_matches := bracketMatches "bo1" "bo1" 8 3 100 1,
      next_id := 107 }

theorem c3_generate_single_elimination_bracket_witness :
    2 ≤ (List.replicate 5 (none : Option Nat)).length ∧
    generate_single_elimination_bracket c3Start (List.replicate 5 none) 1 = .ok c3Result ∧
    c3Result.playoff_matches.length = nextPow2 5 - 1 ∧
    c3Result.playoff_matches.countP (fun n => n.round_number = 1) = nextPow2 5 / 2 := by
  have hok : generate_single_elimination_bracket c3Start (List.replicate 5 none) 1 =
      .ok c3Result := by rfl
  have h := c3_generate_single_elimination_bracket c3Start
    (List.replicate 5 none) 1 c3Result (by simp) rfl rfl rfl hok
  have h5 : (List.replicate 5 (none : Option Nat)).length = 5 := by simp
  rw [h5] at h
  exact ⟨by simp, hok, h.1, h.2.2.1⟩

/-! ### C1 -/

/-- The single (hence final) bracket node of a 2-participant playoff-only
tournament. -/
def c1Node : PlayoffStageMatch :=
  { id := 10, match_id := 1, round_number := 1, bracket := "winner",
    depends_on_match_1_id := none, depends_on_match_2_id := none }

/-- The final match, ongoing, participant 1 leading 1-0 on maps. -/
def c1Match : MatchRec :=
  { id := 1, participant1_id := some 1, participant2_id := some 2,
    participant1_score := 1, participant2_score := 0, winner_id := none,
    status := "ongoing", format := "bo1", group_id := none,
    playoff_match_id := some 10, number := 1 }

/-- A playoff-only tournament (no group stage) whose only match is the
bracket final. -/
def c1State : TState :=
  { baseState with
      users := [1, 2], participants := [1, 2], max_players := 2,
      playoff_matches := [c1Node], all_matches := [c1Match] }

/-- C1: completing the bracket's final match of a playoff-only tournament
does not cascade into tournament completion — it raises.  The group-stage
completion check in `complete_match` runs for every match; for a playoff
match `group_id` is `None`, the filter collects the (all-completed) playoff
matches, and `complete_group_stage` is invoked on a tournament that has no
group stage, raising `ValueError` before the final-match check is reached;
the tournament stays `ongoing`. -/
theorem c1_complete_match_final_raises :
    c1State.group_stage = none ∧
    c1State.status = "ongoing" ∧
    firstMaxRound (c1State.playoff_matches.filter (fun n => n.bracket = "winner")) =
      some c1Node ∧
    findMatch c1State 1 = some c1Match ∧
    c1Match.playoff_match_id = some c1Node.id ∧
    complete_match (fun l => l) c1State 1 (some 1) =
      .error "Tournament does not have a group stage" := by
  refine ⟨rfl, rfl, rfl, rfl, rfl, by rfl⟩

/-! ### C6 -/

/-- A finished 4-participant single-elimination playoff: two semifinals and
the final, all completed, participant 1 winning the final over 3. -/
def c6State : TState :=
  { baseState with
      prize_rows := [
        { place := 1, user_id := .empty, team_id := .empty, prize := 50 },
        { place := 2, user_id := .empty, team_id := .empty, prize := 30 },
        { place := 3, user_id := .empty, team_id := .empty, prize := 20 }],
      playoff_matches := [
        { id := 101, match_id := 1, round_number := 1, bracket := "winner",
          depends_on_match_1_id := none, depends_on_match_2_id := none },
        { id := 102, match_id := 2, round_number := 1, bracket := "winner",
          depends_on_match_1_id := none, depends_on_match_2_id := none },
        { id := 103, match_id := 3, round_number := 2, bracket := "winner",
          depends_on_match_1_id := some 101, depends_on_match_2_id := some 102 }],
      all_matches := [
        { id := 1, participant1_id := some 1, participant2_id := some 2,
          participant1_score := 1, participant2_score := 0, winner_id := some 1,
          status := "completed", format := "bo1", group_id := none,
          playoff_match_id := some 101, number := 1 },
        { id := 2, participant1_id := some 3, participant2_id := some 4,
          participant1_score := 1, participant2_score := 0, winner_id := some 3,
          status := "completed", format := "bo1", group_id := none,
          playoff_match_id := some 102, number := 2 },
        { id := 3, participant1_id := some 1, participant2_id := some 3,
          participant1_score := 1, participant2_score := 0, winner_id := some 1,
          status := "completed", format := "bo1", group_id := none,
          playoff_match_id := some 103, number := 3 }] }

/-- `c6State` after `complete_tournament`: winner and loser ids are written
into the place-1/2 rows, but the place-3 row receives the 1-tuples from the
source's trailing commas. -/
def c6Result : TState :=
  { c6State with
      status := "completed",
      prize_rows := [
        { place := 1, user_id := .pval 1, team_id := .empty, prize := 50 },
        { place := 2, user_id := .pval 3, team_id := .empty, prize := 30 },
        { place := 3, user_id := .ptuple (some 2), team_id := .ptuple none, prize := 20 }] }

/-- C6: under the claim's preconditions, `complete_tournament` writes the
final winner into the place-1 row and the final loser into the place-2 row
and sets the tournament `completed`, but the place-3 row does not record the
first semifinal loser (participant 2): because of the trailing commas in the
source, the row's `user_id`/`team_id` receive the tuples `(2,)`/`(None,)`
rather than the id. -/
theorem c6_complete_tournament_third_place_tuple :
    complete_tournament c6State = .ok c6Result ∧
    (c6Result.prize_rows.find? (fun r => r.place = 1)).map (fun r => r.user_id) =
      some (.pval 1) ∧
    (c6Result.prize_rows.find? (fun r => r.place = 2)).map (fun r => r.user_id) =
      some (.pval 3) ∧
    (c6Result.prize_rows.find? (fun r => r.place = 3)).map (fun r => r.user_id) =
      some (.ptuple (some 2)) ∧
    (c6Result.prize_rows.find? (fun r => r.place = 3)).map (fun r => r.team_id) =
      some (.ptuple none) ∧
    ¬ (c6Result.prize_rows.find? (fun r => r.place = 3)).map (fun r => r.user_id) =
      some (.pval 2) ∧
    c6Result.status = "completed" := by
  refine ⟨rfl, rfl, rfl, rfl, rfl, by decide, rfl⟩

/-! ### C2 -/

/-- A `bo3` match with both participants, participant 1 having won map 1,
maps 2 and 3 still unplayed. -/
def c2State : TState :=
  { baseState with
      users := [1, 2],
      all_matches := [
        { id := 1, participant1_id := some 1, participant2_id := some 2,
          participant1_score := 1, participant2_score := 0, winner_id := none,
          status := "ongoing", format := "bo3", group_id := none,
          playoff_match_id := none, number := 1 }],
      maps := [
        { id := 10, match_id := 1, winner_id := some 1 },
        { id := 11, match_id := 1, winner_id := none },
        { id := 12, match_id := 1, winner_id := none }] }

/-- `c2State` after participant 1 also wins map 2: score 2-0, map 3 still
unplayed, match still `ongoing`. -/
def c2Result : TState :=
  { c2State with
      all_matches := [
        { id := 1, participant1_id := some 1, participant2_id := some 2,
          participant1_score := 2, participant2_score := 0, winner_id := none,
          status := "ongoing", format := "bo3", group_id := none,
          playoff_match_id := none, number := 1 }],
      maps := [
        { id := 10, match_id := 1, winner_id := some 1 },
        { id := 11, match_id := 1, winner_id := some 1 },
        { id := 12, match_id := 1, winner_id := none }] }

/-- C2 counterexample: in a `bo3` match, participant 1's score reaches 2,
which strictly exceeds `3 / 2`, with map 3 still unplayed — yet
`complete_map` leaves the match `ongoing` with no winner: the decision check
is guarded by "all maps have a recorded winner", so no winner is declared
while a map is unplayed, contrary to the claim. -/
theorem c2_counterexample :
    complete_map (fun l => l) c2State 1 11 (some 1) = .ok c2Result ∧
    (findMatch c2Result 1).map (fun m => m.participant1_score) = some 2 ∧
    (3 : Nat) / 2 < 2 ∧
    (findMatch c2Result 1).map (fun m => m.status) = some "ongoing" ∧
    (findMatch c2Result 1).map (fun m => m.winner_id) = some none ∧
    (c2Result.maps.filter (fun q => q.match_id = 1)).all
      (fun q => ¬ q.winner_id = none) = false := by
  refine ⟨rfl, rfl, by decide, rfl, rfl, by decide⟩

theorem mapScoreUpd_fields (w : Option Nat) (mm : MatchRec) :
    (mapScoreUpd w mm).id = mm.id ∧ (mapScoreUpd w mm).status = mm.status ∧
    (mapScoreUpd w mm).winner_id = mm.winner_id ∧
    (mapScoreUpd w mm).participant1_id = mm.participant1_id ∧
    (mapScoreUpd w mm).participant2_id = mm.participant2_id := by
  unfold mapScoreUpd
  split
  · exact ⟨rfl, rfl, rfl, rfl, rfl⟩
  split
  · exact ⟨rfl, rfl, rfl, rfl, rfl⟩
  · exact ⟨rfl, rfl, rfl, rfl, rfl⟩

theorem updateMatch_maps (st : TState) (i : Nat) (f : MatchRec → MatchRec) :
    (updateMatch st i f).maps = st.maps := rfl

/-- The `bo3` match record of `c2State`. -/
def c2M : MatchRec :=
  { id := 1, participant1_id := some 1, participant2_id := some 2,
    participant1_score := 1, participant2_score := 0, winner_id := none,
    status := "ongoing", format := "bo3", group_id := none,
    playoff_match_id := none, number := 1 }

/-! ### C5 -/

/-- Participant slots already assigned in `st` survive into `st'`:
`update_next_match_participants` only ever writes an empty slot (and
winner/status fields), never clears or overwrites an occupied slot. -/
def SlotKeep (st st' : TState) : Prop :=
  ∀ j m, findMatch st j = some m →
    ∃ m', findMatch st' j = some m' ∧
      (∀ v, m.participant1_id = some v → m'.participant1_id = some v) ∧
      (∀ v, m.participant2_id = some v → m'.participant2_id = some v)

theorem slotKeep_refl (st : TState) : SlotKeep st st :=
  fun _ m hm => ⟨m, hm, fun _ hv => hv, fun _ hv => hv⟩

theorem slotKeep_trans {a b c : TState} (h1 : SlotKeep a b) (h2 : SlotKeep b c) :
    SlotKeep a c := by
  intro j m hm
  rcases h1 j m hm with ⟨m1, hm1, hp1, hp2⟩
  rcases h2 j m1 hm1 with ⟨m2, hm2, hq1, hq2⟩
  exact ⟨m2, hm2, fun v hv => hq1 v (hp1 v hv), fun v hv => hq2 v (hp2 v hv)⟩

theorem slotKeep_updateMatch (st : TState) (i : Nat) (f : MatchRec → MatchRec)
    (hid : ∀ m, (f m).id = m.id)
    (hf : ∀ m, findMatch st i = some m →
      (∀ v, m.participant1_id = some v → (f m).participant1_id = some v) ∧
      (∀ v, m.participant2_id = some v → (f m).participant2_id = some v)) :
    SlotKeep st (updateMatch st i f) := by
  intro j m hm
  rw [findMatch_updateMatch st i f hid j, hm]
  by_cases hji : m.id = i
  · have hj : j = i := by
      have hmj := List.find?_some hm
      simp only [decide_eq_true_eq] at hmj
      omega
    subst hj
    rcases hf m hm with ⟨h1, h2⟩
    exact ⟨f m, by simp [hji], h1, h2⟩
  · exact ⟨m, by simp [hji], fun _ hv => hv, fun _ hv => hv⟩

theorem cancelWith_id (w : Option Nat) (m : MatchRec) : (cancelWith w m).id = m.id := rfl

theorem setP1_id (w : Nat) (m : MatchRec) : (setP1 w m).id = m.id := rfl

theorem setP2_id (w : Nat) (m : MatchRec) : (setP2 w m).id = m.id := rfl

theorem slotKeep_cancelWith (st : TState) (i : Nat) (w : Option Nat) :
    SlotKeep st (updateMatch st i (cancelWith w)) :=
  slotKeep_updateMatch st i (cancelWith w) (fun _ => rfl)
    (fun _ _ => ⟨fun _ hv => hv, fun _ hv => hv⟩)

theorem updNextCont_slotKeep (recur : TState → Nat → Nat → Except String TState)
    (hrec : ∀ s a b s', recur s a b = .ok s' → SlotKeep s s')
    (st st1 : TState) (nxt pm : PlayoffStageMatch) (st' : TState)
    (h : updNextCont recur st1 nxt pm = .ok st') (hsk : SlotKeep st st1) :
    SlotKeep st st' := by
  simp only [updNextCont] at h
  cases hp : (if nxt.depends_on_match_2_id = some pm.id then nxt.depends_on_match_1_id
      else nxt.depends_on_match_2_id).bind (fun pid => findNode st1 pid) with
  | none =>
    simp only [hp] at h
    injection h with h1
    subst h1
    exact hsk
  | some par =>
    simp only [hp] at h
    cases hpm : findMatch st1 par.match_id with
    | none =>
      simp only [hpm] at h
      injection h with h1
      subst h1
      exact hsk
    | some parM =>
      simp only [hpm] at h
      by_cases hc : ¬ parM.status = "cancelled"
      · rw [if_pos hc] at h
        injection h with h1
        subst h1
        exact hsk
      · rw [if_neg hc] at h
        cases hn1 : findMatch st1 nxt.match_id with
        | none =>
          simp only [hn1] at h
          injection h with h1
          subst h1
          exact hsk
        | some nm1 =>
          simp only [hn1] at h
          cases hw1 : nm1.participant1_id with
          | some w1 =>
            cases hw2 : nm1.participant2_id with
            | none =>
              simp only [hw1, hw2] at h
              exact slotKeep_trans
                (slotKeep_trans hsk (slotKeep_cancelWith st1 nxt.match_id (some w1)))
                (hrec _ _ _ _ h)
            | some x =>
              simp only [hw1, hw2] at h
              injection h with h1
              subst h1
              exact hsk
          | none =>
            cases hw2 : nm1.participant2_id with
            | some w2 =>
              simp only [hw1, hw2] at h
              exact slotKeep_trans
                (slotKeep_trans hsk (slotKeep_cancelWith st1 nxt.match_id (some w2)))
                (hrec _ _ _ _ h)
            | none =>
              simp only [hw1, hw2] at h
              injection h with h1
              subst h1
              exact hsk

/-- `update_next_match_participants` never un-assigns a participant slot. -/
theorem update_next_slotKeep (fuel : Nat) :
    ∀ (st : TState) (mid w : Nat) (st' : TState),
      update_next_match_participants fuel st mid w = .ok st' → SlotKeep st st' := by
  induction fuel with
  | zero =>
    intro st mid w st' h
    exact Except.noConfusion h
  | succ fuel ih =>
    intro st mid w st' h
    simp only [update_next_match_participants] at h
    cases hfm : findMatch st mid with
    | none =>
      simp only [hfm] at h
      exact Except.noConfusion h
    | some m =>
      simp only [hfm] at h
      cases hpn : playoffNodeOf st m with
      | none =>
        simp only [hpn] at h
        injection h with h1
        subst h1
        exact slotKeep_refl st
      | some pm =>
        simp only [hpn] at h
        cases hnx : (st.playoff_matches.find?
            (fun n => n.depends_on_match_1_id = some pm.id)).orElse
            (fun _ => st.playoff_matches.find?
              (fun n => n.depends_on_match_2_id = some pm.id)) with
        | none =>
          simp only [hnx] at h
          injection h with h1
          subst h1
          exact slotKeep_refl st
        | some nxt =>
          simp only [hnx] at h
          cases hnm : findMatch st nxt.match_id with
          | none =>
            simp only [hnm] at h
            injection h with h1
            subst h1
            exact slotKeep_refl st
          | some nm =>
            simp only [hnm] at h
            by_cases hs1 : nm.participant1_id = none
            · rw [if_pos hs1] at h
              exact updNextCont_slotKeep _ (fun s a b s' hh => ih s a b s' hh) st
                (updateMatch st nxt.match_id (setP1 w)) nxt pm st' h
                (slotKeep_updateMatch st nxt.match_id (setP1 w) (fun _ => rfl)
                  (fun m2 hm2 => by
                    rw [hnm] at hm2
                    injection hm2 with hm2
                    subst hm2
                    exact ⟨fun v hv => absurd hv (by rw [hs1]; exact Option.noConfusion),
                      fun v hv => hv⟩))
            · rw [if_neg hs1] at h
              by_cases hs2 : nm.participant2_id = none
              · rw [if_pos hs2] at h
                exact updNextCont_slotKeep _ (fun s a b s' hh => ih s a b s' hh) st
                  (updateMatch st nxt.match_id (setP2 w)) nxt pm st' h
                  (slotKeep_updateMatch st nxt.match_id (setP2 w) (fun _ => rfl)
                    (fun m2 hm2 => by
                      rw [hnm] at hm2
                      injection hm2 with hm2
                      subst hm2
                      exact ⟨fun v hv => hv,
                        fun v hv => absurd hv (by rw [hs2]; exact Option.noConfusion)⟩))
              · rw [if_neg hs2] at h
                exact Except.noConfusion h

/-- C5: winner propagation is a no-op when the completed match is not part
of the playoff bracket (e.g. a group match); when it is, the winner is
written into the first empty participant slot of the bracket match that
depends on it — `participant1` first, `participant2` only when
`participant1` is already occupied (the occupied slot and the written slot
both survive the ensuing bye-propagation) — and a `ValidationError` is
raised when both slots are already occupied. -/
theorem c5_update_next_match_participants (fuel : Nat) (st : TState) (mid w : Nat) :
    (∀ m, findMatch st mid = some m → playoffNodeOf st m = none →
      update_next_match_participants (fuel + 1) st mid w = .ok st) ∧
    (∀ m pm nxt nm st',
      findMatch st mid = some m → playoffNodeOf st m = some pm →
      (st.playoff_matches.find? (fun n => n.depends_on_match_1_id = some pm.id)).orElse
        (fun _ => st.playoff_matches.find? (fun n => n.depends_on_match_2_id = some pm.id)) =
        some nxt →
      findMatch st nxt.match_id = some nm →
      nm.participant1_id = none →
      update_next_match_participants (fuel + 1) st mid w = .ok st' →
      ∃ nm', findMatch st' nxt.match_id = some nm' ∧ nm'.participant1_id = some w) ∧
    (∀ m pm nxt nm st' v,
      findMatch st mid = some m → playoffNodeOf st m = some pm →
      (st.playoff_matches.find? (fun n => n.depends_on_match_1_id = some pm.id)).orElse
        (fun _ => st.playoff_matches.find? (fun n => n.depends_on_match_2_id = some pm.id)) =
        some nxt →
      findMatch st nxt.match_id = some nm →
      nm.participant1_id = some v → nm.participant2_id = none →
      update_next_match_participants (fuel + 1) st mid w = .ok st' →
      ∃ nm', findMatch st' nxt.match_id = some nm' ∧
        nm'.participant1_id = some v ∧ nm'.participant2_id = some w) ∧
    (∀ m pm nxt nm,
      findMatch st mid = some m → playoffNodeOf st m = some pm →
      (st.playoff_matches.find? (fun n => n.depends_on_match_1_id = some pm.id)).orElse
        (fun _ => st.playoff_matches.find? (fun n => n.depends_on_match_2_id = some pm.id)) =
        some nxt →
      findMatch st nxt.match_id = some nm →
      ¬ nm.participant1_id = none → ¬ nm.participant2_id = none →
      update_next_match_participants (fuel + 1) st mid w =
        .error "Next winner match already has both participants") := by
  refine ⟨?_, ?_, ?_, ?_⟩
  · intro m hfm hpn
    simp only [update_next_match_participants, hfm, hpn]
  · intro m pm nxt nm st' hfm hpn hnx hnm hs1 hok
    simp only [update_next_match_participants, hfm, hpn, hnx, hnm] at hok
    rw [if_pos hs1] at hok
    have hnmid : nm.id = nxt.match_id := by
      have := List.find?_some hnm
      simpa using this
    have h1 : findMatch (updateMatch st nxt.match_id (setP1 w)) nxt.match_id =
        some (setP1 w nm) := by
      rw [findMatch_updateMatch st nxt.match_id (setP1 w) (fun _ => rfl) nxt.match_id, hnm]
      simp [hnmid]
    have hsk : SlotKeep (updateMatch st nxt.match_id (setP1 w)) st' :=
      updNextCont_slotKeep _ (fun s a b s' hh => update_next_slotKeep fuel s a b s' hh)
        _ _ nxt pm st' hok (slotKeep_refl _)
    rcases hsk nxt.match_id (setP1 w nm) h1 with ⟨nm', hnm', hp1, _⟩
    exact ⟨nm', hnm', hp1 w rfl⟩
  · intro m pm nxt nm st' v hfm hpn hnx hnm hs1 hs2 hok
    simp only [update_next_match_participants, hfm, hpn, hnx, hnm] at hok
    rw [if_neg (by rw [hs1]; exact fun hc => Option.noConfusion hc), if_pos hs2] at hok
    have hnmid : nm.id = nxt.match_id := by
      have := List.find?_some hnm
      simpa using this
    have h1 : findMatch (updateMatch st nxt.match_id (setP2 w)) nxt.match_id =
        some (setP2 w nm) := by
      rw [findMatch_updateMatch st nxt.match_id (setP2 w) (fun _ => rfl) nxt.match_id, hnm]
      simp [hnmid]
    have hsk : SlotKeep (updateMatch st nxt.match_id (setP2 w)) st' :=
      updNextCont_slotKeep _ (fun s a b s' hh => update_next_slotKeep fuel s a b s' hh)
        _ _ nxt pm st' hok (slotKeep_refl _)
    rcases hsk nxt.match_id (setP2 w nm) h1 with ⟨nm', hnm', hp1, hp2⟩
    refine ⟨nm', hnm', hp1 v ?_, hp2 w rfl⟩
    show (setP2 w nm).participant1_id = some v
    rw [show (setP2 w nm).participant1_id = nm.participant1_id from rfl, hs1]
  · intro m pm nxt nm hfm hpn hnx hnm hocc1 hocc2
    simp only [update_next_match_participants, hfm, hpn, hnx, hnm]
    rw [if_neg hocc1, if_neg hocc2]

/-- A 4-slot bracket: two semifinal nodes feeding a final node, semifinal 1
completed, semifinal 2 scheduled, the final empty; plus one group match
(id 5) that is not part of the bracket. -/
def c5State : TState :=
  { baseState with
      playoff_matches := [
        { id := 11, match_id := 1, round_number := 1, bracket := "winner",
          depends_on_match_1_id := none, depends_on_match_2_id := none },
        { id := 12, match_id := 2, round_number := 1, bracket := "winner",
          depends_on_match_1_id := none, depends_on_match_2_id := none },
        { id := 13, match_id := 3, round_number := 2, bracket := "winner",
          depends_on_match_1_id := some 11, depends_on_match_2_id := some 12 }],
      all_matches := [
        { id := 1, participant1_id := some 1, participant2_id := some 2,
          participant1_score := 1, participant2_score := 0, winner_id := some 1,
          status := "completed", format := "bo1", group_id := none,
          playoff_match_id := some 11, number := 1 },
        { id := 2, participant1_id := some 3, participant2_id := some 4,
          participant1_score := 0, participant2_score := 0, winner_id := none,
          status := "scheduled", format := "bo1", group_id := none,
          playoff_match_id := some 12, number := 2 },
        { id := 3, participant1_id := none, participant2_id := none,
          participant1_score := 0, participant2_score := 0, winner_id := none,
          status := "scheduled", format := "bo1", group_id := none,
          playoff_match_id := some 13, number := 3 },
        { id := 5, participant1_id := some 1, participant2_id := some 2,
          participant1_score := 0, participant2_score := 0, winner_id := none,
          status := "scheduled", format := "bo1", group_id := some 9,
          playoff_match_id := none, number := 4 }] }

/-- `c5State` after advancing the semifinal-1 winner into the final. -/
def c5StateB : TState :=
  { c5State with
      all_matches := [
        { id := 1, participant1_id := some 1, participant2_id := some 2,
          participant1_score := 1, participant2_score := 0, winner_id := some 1,
          status := "completed", format := "bo1", group_id := none,
          playoff_match_id := some 11, number := 1 },
        { id := 2, participant1_id := some 3, participant2_id := some 4,
          participant1_score := 0, participant2_score := 0, winner_id := none,
          status := "scheduled", format := "bo1", group_id := none,
          playoff_match_id := some 12, number := 2 },
        { id := 3, participant1_id := some 1, participant2_id := none,
          participant1_score := 0, participant2_score := 0, winner_id := none,
          status := "scheduled", format := "bo1", group_id := none,
          playoff_match_id := some 13, number := 3 },
        { id := 5, participant1_id := some 1, participant2_id := some 2,
          participant1_score := 0, participant2_score := 0, winner_id := none,
          status := "scheduled", format := "bo1", group_id := some 9,
          playoff_match_id := none, number := 4 }] }

/-- `c5StateB` after advancing the semifinal-2 winner into the final. -/
def c5StateC : TState :=
  { c5State with
      all_matches := [
        { id := 1, participant1_id := some 1, participant2_id := some 2,
          participant1_score := 1, participant2_score := 0, winner_id := some 1,
          status := "completed", format := "bo1", group_id := none,
          playoff_match_id := some 11, number := 1 },
        { id := 2, participant1_id := some 3, participant2_id := some 4,
          participant1_score := 0, participant2_score := 0, winner_id := none,
          status := "scheduled", format := "bo1", group_id := none,
          playoff_match_id := some 12, number := 2 },
        { id := 3, participant1_id := some 1, participant2_id := some 3,
          participant1_score := 0, participant2_score := 0, winner_id := none,
          status := "scheduled", format := "bo1", group_id := none,
          playoff_match_id := some 13, number := 3 },
        { id := 5, participant1_id := some 1, participant2_id := some 2,
          participant1_score := 0, participant2_score := 0, winner_id := none,
          status := "scheduled", format := "bo1", group_id := some 9,
          playoff_match_id := none, number := 4 }] }

theorem c5_update_next_match_participants_witness :
    (update_next_match_participants 4 c5State 5 1 = .ok c5State) ∧
    (update_next_match_participants 4 c5State 1 1 = .ok c5StateB ∧
      ∃ nm', findMatch c5StateB 3 = some nm' ∧ nm'.participant1_id = some 1) ∧
    (update_next_match_participants 4 c5StateB 2 3 = .ok c5StateC ∧
      ∃ nm', findMatch c5StateC 3 = some nm' ∧ nm'.participant1_id = some 1 ∧
        nm'.participant2_id = some 3) ∧
    update_next_match_participants 4 c5StateC 1 1 =
      .error "Next winner match already has both participants" := by
  have hb : update_next_match_participants 4 c5State 1 1 = .ok c5StateB := by rfl
  have hc : update_next_match_participants 4 c5StateB 2 3 = .ok c5StateC := by rfl
  refine ⟨(c5_update_next_match_participants 3 c5State 5 1).1 _ rfl rfl,
    ⟨hb, (c5_update_next_match_participants 3 c5State 1 1).2.1 _ _ _ _ c5StateB
      rfl rfl rfl rfl rfl hb⟩,
    ⟨hc, (c5_update_next_match_participants 3 c5StateB 2 3).2.2.1 _ _ _ _ c5StateC 1
      rfl rfl rfl rfl rfl rfl hc⟩,
    (c5_update_next_match_participants 3 c5StateC 1 1).2.2.2 _ _ _ _
      rfl rfl rfl rfl (by decide) (by decide)⟩

/-! ### C4 -/

/-- The state `complete_map` has built just before the all-maps-played
check: the map's winner recorded and the score bumped. -/
def c4ST2 (st : TState) (mid mapid b : Nat) : TState :=
  updateMatch { st with maps := st.maps.map (setMapWinner mapid (some b)) } mid
    (mapScoreUpd (some b))

/-- The state after the bo2 draw has been written: the match completed with
no winner and both standings rows' `draws` bumped. -/
def c4ST4 (st : TState) (mid mapid b i1 i2 : Nat) : TState :=
  updateRow (updateRow (updateMatch (c4ST2 st mid mapid b) mid completeDraw) i1
    (fun r => { r with draws := r.draws + 1 })) i2
    (fun r => { r with draws := r.draws + 1 })

/-- The `.ok` payload of `sort_group_standings`. -/
def sortedApplied (st : TState) (g : Nat) : TState :=
  { st with
      group_rows := st.group_rows.map
        (placeUpd (stableSort standingsGe
          ((st.group_rows.filter (fun r => r.group_id = g)).map rowKey)) g) }

theorem sort_group_standings_ok (st : TState) (g : Nat) (grp : GroupRec)
    (hgrp : st.groups.find? (fun x => x.id = g) = some grp)
    (hne : (st.group_rows.filter (fun r => r.group_id = g)).isEmpty = false) :
    sort_group_standings st g = .ok (sortedApplied st g) := by
  simp only [sort_group_standings, hgrp, hne]
  rfl

theorem filter_nonempty_of_mem {α : Type} (l : List α) (p : α → Bool) (a : α)
    (ha : a ∈ l) (hpa : p a = true) : (l.filter p).isEmpty = false := by
  rw [List.isEmpty_eq_false]
  intro h
  rw [List.filter_eq_nil_iff] at h
  exact h a ha hpa

theorem all_matches_done_false (st : TState) (go : Option Nat) (m2 : MatchRec)
    (hm2 : m2 ∈ st.all_matches) (hg : m2.group_id = go)
    (h1 : ¬ m2.status = "completed") (h2 : ¬ m2.status = "cancelled") :
    ((st.all_matches.filter (fun mm => mm.group_id = go)).all
      (fun mm => mm.status = "completed" || mm.status = "cancelled")) = false := by
  rw [List.all_eq_false]
  exact ⟨m2, List.mem_filter.mpr ⟨hm2, by simp [hg]⟩, by simp [h1, h2]⟩

theorem find?_three_maps {α : Type} (l : List α) (u1 u2 u3 : α → α) (p : α → Bool)
    (h1 : ∀ x, p (u1 x) = p x) (h2 : ∀ x, p (u2 x) = p x)
    (h3 : ∀ x, p (u3 x) = p x) :
    (((l.map u1).map u2).map u3).find? p =
      (l.find? p).map (fun x => u3 (u2 (u1 x))) := by
  rw [find?_map_of_pred _ u3 p h3, find?_map_of_pred _ u2 p h2,
    find?_map_of_pred _ u1 p h1]
  cases l.find? p <;> rfl

theorem placeUpd_stats (S : List (Nat × Nat × Nat)) (gid : Nat) (r : GroupRow) :
    (placeUpd S gid r).draws = r.draws ∧ (placeUpd S gid r).wins = r.wins := by
  unfold placeUpd
  split
  · exact ⟨rfl, rfl⟩
  · exact ⟨rfl, rfl⟩

/-- C4: completing the second map of a `bo2` group-stage match in which each
participant has won one map completes the match as a draw (status
`completed`, winner `None`), increments the `draws` counter of both
participants' rows by exactly one, and the standings recomputation that
follows scores each row as `2*wins + 1*draws`, one point more than before
this match was recorded. -/
theorem c4_bo2_group_draw (sh : List (Option Nat) → List (Option Nat))
    (st : TState) (mid mapid g : Nat) (m : MatchRec) (mp1 mp2 : MapRec)
    (a b : Nat) (r1 r2 : GroupRow) (grp : GroupRec) (m2 : MatchRec)
    (hm : findMatch st mid = some m)
    (hst : m.status = "ongoing")
    (hfmt : m.format = "bo2")
    (hgid : m.group_id = some g)
    (hpm : m.playoff_match_id = none)
    (hp1 : m.participant1_id = some a)
    (hp2 : m.participant2_id = some b)
    (hab : ¬ b = a)
    (hs1 : m.participant1_score = 1)
    (hs2 : m.participant2_score = 0)
    (hmaps : st.maps.filter (fun q => q.match_id = mid) = [mp1, mp2])
    (hmp1w : mp1.winner_id = some a)
    (hmp1id : ¬ mp1.id = mapid)
    (hmp2find : st.maps.find? (fun q => q.id = mapid) = some mp2)
    (hmp2mid : mp2.match_id = mid)
    (hmp2w : mp2.winner_id = none)
    (hbknown : isKnownParticipant st b = true)
    (hr1 : st.group_rows.find?
      (fun r => r.group_id = g ∧ r.participant_id = some a) = some r1)
    (hr2 : st.group_rows.find?
      (fun r => r.group_id = g ∧ r.participant_id = some b) = some r2)
    (hr21 : ¬ r2.id = r1.id)
    (hgrp : st.groups.find? (fun x => x.id = g) = some grp)
    (hm2 : m2 ∈ st.all_matches) (hm2g : m2.group_id = some g)
    (hm2id : ¬ m2.id = mid)
    (hm2c : ¬ m2.status = "completed") (hm2x : ¬ m2.status = "cancelled") :
    ∃ st', complete_map sh st mid mapid (some b) = .ok st' ∧
      (∃ m', findMatch st' mid = some m' ∧ m'.status = "completed" ∧
        m'.winner_id = none ∧ m'.participant1_score = 1 ∧
        m'.participant2_score = 1) ∧
      (∃ r1', st'.group_rows.find?
          (fun r => r.group_id = g ∧ r.participant_id = some a) = some r1' ∧
        r1'.draws = r1.draws + 1 ∧ r1'.wins = r1.wins ∧
        r1'.wins * 2 + r1'.draws * 1 = r1.wins * 2 + r1.draws * 1 + 1) ∧
      (∃ r2', st'.group_rows.find?
          (fun r => r.group_id = g ∧ r.participant_id = some b) = some r2' ∧
        r2'.draws = r2.draws + 1 ∧ r2'.wins = r2.wins ∧
        r2'.wins * 2 + r2'.draws * 1 = r2.wins * 2 + r2.draws * 1 + 1) := by
  have hmid : m.id = mid := by simpa using List.find?_some hm
  have hmp2id : mp2.id = mapid := by simpa using List.find?_some hmp2find
  have hr1g : r1.group_id = g ∧ r1.participant_id = some a := by
    simpa using List.find?_some hr1
  have hr2g : r2.group_id = g ∧ r2.participant_id = some b := by
    simpa using List.find?_some hr2
  have hscore : mapScoreUpd (some b) m =
      { m with participant2_score := m.participant2_score + 1 } := by
    unfold mapScoreUpd
    rw [if_neg (by rw [hp1]; simp [hab]), if_pos (by rw [hp2])]
  have hM2stat : (mapScoreUpd (some b) m).status = "ongoing" := by
    rw [(mapScoreUpd_fields (some b) m).2.1]; exact hst
  have hM2p1 : (mapScoreUpd (some b) m).participant1_id = some a := by
    rw [(mapScoreUpd_fields (some b) m).2.2.2.1]; exact hp1
  have hM2p2 : (mapScoreUpd (some b) m).participant2_id = some b := by
    rw [(mapScoreUpd_fields (some b) m).2.2.2.2]; exact hp2
  have hM2id : (mapScoreUpd (some b) m).id = mid := by
    rw [(mapScoreUpd_fields (some b) m).1]; exact hmid
  have hM2f : (mapScoreUpd (some b) m).format = "bo2" := by
    rw [hscore]; exact hfmt
  have hM2gid : (mapScoreUpd (some b) m).group_id = some g := by
    rw [hscore]; exact hgid
  have hM2pm : (mapScoreUpd (some b) m).playoff_match_id = none := by
    rw [hscore]; exact hpm
  have hM2s1 : (mapScoreUpd (some b) m).participant1_score = 1 := by
    rw [hscore]; exact hs1
  have hM2s2 : (mapScoreUpd (some b) m).participant2_score = 1 := by
    rw [hscore]; show m.participant2_score + 1 = 1; rw [hs2]
  have hfm0 : findMatch { st with maps := st.maps.map (setMapWinner mapid (some b)) } mid
      = some m := hm
  have hfm : findMatch (updateMatch
      { st with maps := st.maps.map (setMapWinner mapid (some b)) } mid
      (mapScoreUpd (some b))) mid = some (mapScoreUpd (some b) m) := by
    rw [findMatch_updateMatch _ _ _ (fun mm => (mapScoreUpd_fields (some b) mm).1) mid,
      hfm0]
    simp [hmid]
  have hallT : ∀ x ∈ (updateMatch
      { st with maps := st.maps.map (setMapWinner mapid (some b)) } mid
      (mapScoreUpd (some b))).maps, ¬ x.match_id = mid ∨ ¬ x.winner_id = none := by
    intro x hx
    rw [updateMatch_maps] at hx
    rcases List.mem_map.mp hx with ⟨y, hy, rfl⟩
    by_cases hym : y.match_id = mid
    · right
      have hymem : y ∈ st.maps.filter (fun q => q.match_id = mid) :=
        List.mem_filter.mpr ⟨hy, by simp [hym]⟩
      rw [hmaps] at hymem
      simp only [List.mem_cons, List.mem_singleton, List.not_mem_nil, or_false] at hymem
      rcases hymem with rfl | rfl
      · unfold setMapWinner
        rw [if_neg hmp1id, hmp1w]
        simp
      · unfold setMapWinner
        rw [if_pos hmp2id]
        simp
    · left
      unfold setMapWinner
      split <;> simpa using hym
  have hA : complete_map sh st mid mapid (some b) =
      complete_match sh (c4ST2 st mid mapid b) mid none := by
    simp [complete_map, hm, hst, hp1, hp2, hmp2find, hmp2mid, hmp2w, hbknown]
    rw [hfm]
    dsimp only
    rw [if_pos hallT, hM2f, hM2s1, hM2s2]
    rw [if_pos (by decide : startsWithBo "bo2" = true)]
    rw [(by decide : boNum? "bo2" = some 2)]
    dsimp only
    rw [if_pos ⟨rfl, rfl, rfl⟩]
    rfl
  have hfm2c : findMatch (c4ST2 st mid mapid b) mid = some (mapScoreUpd (some b) m) := hfm
  have hfm3 : findMatch (updateMatch (c4ST2 st mid mapid b) mid completeDraw) mid =
      some (completeDraw (mapScoreUpd (some b) m)) := by
    rw [findMatch_updateMatch (c4ST2 st mid mapid b) mid completeDraw (fun _ => rfl) mid,
      hfm2c]
    simp [hM2id]
  have hr1c : (updateMatch (c4ST2 st mid mapid b) mid completeDraw).group_rows.find?
      (fun r => r.group_id = g ∧ r.participant_id = some a) = some r1 := hr1
  have hr2c : (updateMatch (c4ST2 st mid mapid b) mid completeDraw).group_rows.find?
      (fun r => r.group_id = g ∧ r.participant_id = some b) = some r2 := hr2
  have hgrp4 : (c4ST4 st mid mapid b r1.id r2.id).groups.find?
      (fun x => x.id = g) = some grp := hgrp
  have hmemu1 : ({ r1 with draws := r1.draws + 1 } : GroupRow) ∈
      st.group_rows.map (fun r => if r.id = r1.id then { r with draws := r.draws + 1 } else r) :=
    List.mem_map.mpr ⟨r1, List.mem_of_find?_eq_some hr1, by simp⟩
  have hmemu2 : ({ r1 with draws := r1.draws + 1 } : GroupRow) ∈
      (st.group_rows.map
        (fun r => if r.id = r1.id then { r with draws := r.draws + 1 } else r)).map
        (fun r => if r.id = r2.id then { r with draws := r.draws + 1 } else r) :=
    List.mem_map.mpr ⟨_, hmemu1,
      if_neg (fun h : ({ r1 with draws := r1.draws + 1 } : GroupRow).id = r2.id =>
        hr21 h.symm)⟩
  have hne4 : ((c4ST4 st mid mapid b r1.id r2.id).group_rows.filter
      (fun r => r.group_id = g)).isEmpty = false :=
    filter_nonempty_of_mem _ _ _ hmemu2 (by simp [hr1g.1])
  have hsortok : sort_group_standings
      (updateRow (updateRow (updateMatch (c4ST2 st mid mapid b) mid completeDraw) r1.id
        (fun r => { r with draws := r.draws + 1 })) r2.id
        (fun r => { r with draws := r.draws + 1 })) g
      = .ok (sortedApplied (c4ST4 st mid mapid b r1.id r2.id) g) :=
    sort_group_standings_ok (c4ST4 st mid mapid b r1.id r2.id) g grp hgrp4 hne4
  have hmemm1 : m2 ∈ st.all_matches.map
      (fun mm => if mm.id = mid then mapScoreUpd (some b) mm else mm) :=
    List.mem_map.mpr ⟨m2, hm2, if_neg hm2id⟩
  have hmemm2 : m2 ∈ (st.all_matches.map
      (fun mm => if mm.id = mid then mapScoreUpd (some b) mm else mm)).map
      (fun mm => if mm.id = mid then completeDraw mm else mm) :=
    List.mem_map.mpr ⟨m2, hmemm1, if_neg hm2id⟩
  have hmemF : m2 ∈ (sortedApplied (c4ST4 st mid mapid b r1.id r2.id) g).all_matches :=
    hmemm2
  have hcascF := all_matches_done_false (sortedApplied (c4ST4 st mid mapid b r1.id r2.id) g)
    (some g) m2 hmemF hm2g hm2c hm2x
  have hpnF : playoffNodeOf (sortedApplied (c4ST4 st mid mapid b r1.id r2.id) g)
      (mapScoreUpd (some b) m) = none := by
    unfold playoffNodeOf
    rw [hM2pm]
    rfl
  have hB : complete_match sh (c4ST2 st mid mapid b) mid none =
      .ok (sortedApplied (c4ST4 st mid mapid b r1.id r2.id) g) := by
    simp only [complete_match]
    rw [hfm2c]
    dsimp only
    rw [hM2stat, hM2p1, hM2p2, hM2gid, hM2f]
    rw [if_neg (by decide : ¬ ("ongoing" : String) = "completed")]
    rw [if_neg (by simp : ¬ ((some a : Option Nat) = none ∧ (some b : Option Nat) = none))]
    rw [if_neg (by simp : ¬ ((¬ (some a : Option Nat) = none ∧ (some b : Option Nat) = none) ∨
      (¬ (some b : Option Nat) = none ∧ (some a : Option Nat) = none)))]
    rw [if_pos ⟨rfl, trivial⟩]
    dsimp only
    rw [if_neg (by simp : ¬ ((some a : Option Nat) = none ∨ (some b : Option Nat) = none))]
    rw [hr1c, hr2c]
    dsimp only
    rw [hfm3]
    dsimp only
    rw [if_pos ⟨rfl, rfl, rfl⟩]
    rw [hsortok]
    dsimp only
    rw [if_neg (by simp [hcascF])]
    dsimp only
    rw [hpnF]
    dsimp only
    rw [hpnF]
  have hfind1 : (sortedApplied (c4ST4 st mid mapid b r1.id r2.id) g).group_rows.find?
      (fun r => r.group_id = g ∧ r.participant_id = some a) =
      (st.group_rows.find? (fun r => r.group_id = g ∧ r.participant_id = some a)).map
        (fun x => placeUpd (stableSort standingsGe
            (((c4ST4 st mid mapid b r1.id r2.id).group_rows.filter
              (fun r => r.group_id = g)).map rowKey)) g
          ((fun r => if r.id = r2.id then { r with draws := r.draws + 1 } else r)
            ((fun r => if r.id = r1.id then { r with draws := r.draws + 1 } else r) x))) :=
    find?_three_maps st.group_rows _ _ _ _
      (fun x => by by_cases h : x.id = r1.id <;> simp [h])
      (fun x => by by_cases h : x.id = r2.id <;> simp [h])
      (fun x => by unfold placeUpd; split <;> rfl)
  rw [hr1] at hfind1
  simp only [Option.map_some', if_true] at hfind1
  rw [if_neg (fun h : r1.id = r2.id => hr21 h.symm)] at hfind1
  have hfind2 : (sortedApplied (c4ST4 st mid mapid b r1.id r2.id) g).group_rows.find?
      (fun r => r.group_id = g ∧ r.participant_id = some b) =
      (st.group_rows.find? (fun r => r.group_id = g ∧ r.participant_id = some b)).map
        (fun x => placeUpd (stableSort standingsGe
            (((c4ST4 st mid mapid b r1.id r2.id).group_rows.filter
              (fun r => r.group_id = g)).map rowKey)) g
          ((fun r => if r.id = r2.id then { r with draws := r.draws + 1 } else r)
            ((fun r => if r.id = r1.id then { r with draws := r.draws + 1 } else r) x))) :=
    find?_three_maps st.group_rows _ _ _ _
      (fun x => by by_cases h : x.id = r1.id <;> simp [h])
      (fun x => by by_cases h : x.id = r2.id <;> simp [h])
      (fun x => by unfold placeUpd; split <;> rfl)
  rw [hr2] at hfind2
  simp only [Option.map_some'] at hfind2
  rw [if_neg hr21] at hfind2
  simp only [eq_self_iff_true, if_true] at hfind2
  refine ⟨_, hA.trans hB,
    ⟨completeDraw (mapScoreUpd (some b) m), hfm3, rfl, rfl, hM2s1, hM2s2⟩,
    ⟨_, hfind1, ?_, ?_, ?_⟩, ⟨_, hfind2, ?_, ?_, ?_⟩⟩
  · rw [(placeUpd_stats _ _ _).1]
  · rw [(placeUpd_stats _ _ _).2]
  · rw [(placeUpd_stats _ _ _).1, (placeUpd_stats _ _ _).2]
    show r1.wins * 2 + (r1.draws + 1) * 1 = r1.wins * 2 + r1.draws * 1 + 1
    omega
  · rw [(placeUpd_stats _ _ _).1]
  · rw [(placeUpd_stats _ _ _).2]
  · rw [(placeUpd_stats _ _ _).1, (placeUpd_stats _ _ _).2]
    show r2.wins * 2 + (r2.draws + 1) * 1 = r2.wins * 2 + r2.draws * 1 + 1
    omega

/-- The `bo2` group match of `c4State`: score 1-0 after the first map. -/
def c4M : MatchRec :=
  { id := 1, participant1_id := some 1, participant2_id := some 2,
    participant1_score := 1, participant2_score := 0, winner_id := none,
    status := "ongoing", format := "bo2", group_id := some 7,
    playoff_match_id := none, number := 1 }

/-- A second, still scheduled match of the same group. -/
def c4M2 : MatchRec :=
  { id := 2, participant1_id := some 1, participant2_id := some 2,
    participant1_score := 0, participant2_score := 0, winner_id := none,
    status := "scheduled", format := "bo2", group_id := some 7,
    playoff_match_id := none, number := 2 }

/-- Map 1 of the match, won by participant 1. -/
def c4Mp1 : MapRec := { id := 11, match_id := 1, winner_id := some 1 }

/-- Map 2 of the match, still unplayed. -/
def c4Mp2 : MapRec := { id := 12, match_id := 1, winner_id := none }

/-- Standings row of participant 1. -/
def c4R1 : GroupRow :=
  { id := 21, group_id := 7, participant_id := some 1, place := 1,
    wins := 0, draws := 0, loses := 0 }

/-- Standings row of participant 2. -/
def c4R2 : GroupRow :=
  { id := 22, group_id := 7, participant_id := some 2, place := 2,
    wins := 0, draws := 0, loses := 0 }

/-- The group. -/
def c4Grp : GroupRec :=
  { id := 7, letter := "A", max_participants := 4, members := [1, 2] }

/-- An ongoing group-stage tournament with one bo2 group match at score
1-0 whose second map is about to be drawn back to 1-1. -/
def c4State : TState :=
  { baseState with
      groups := [c4Grp],
      group_rows := [c4R1, c4R2],
      all_matches := [c4M, c4M2],
      maps := [c4Mp1, c4Mp2] }

theorem c4_bo2_group_draw_witness :
    ∃ st', complete_map (fun l => l) c4State 1 12 (some 2) = .ok st' ∧
      (∃ m', findMatch st' 1 = some m' ∧ m'.status = "completed" ∧
        m'.winner_id = none ∧ m'.participant1_score = 1 ∧
        m'.participant2_score = 1) ∧
      (∃ r1', st'.group_rows.find?
          (fun r => r.group_id = 7 ∧ r.participant_id = some 1) = some r1' ∧
        r1'.draws = c4R1.draws + 1 ∧ r1'.wins = c4R1.wins ∧
        r1'.wins * 2 + r1'.draws * 1 = c4R1.wins * 2 + c4R1.draws * 1 + 1) ∧
      (∃ r2', st'.group_rows.find?
          (fun r => r.group_id = 7 ∧ r.participant_id = some 2) = some r2' ∧
        r2'.draws = c4R2.draws + 1 ∧ r2'.wins = c4R2.wins ∧
        r2'.wins * 2 + r2'.draws * 1 = c4R2.wins * 2 + c4R2.draws * 1 + 1) :=
  c4_bo2_group_draw (fun l => l) c4State 1 12 7 c4M c4Mp1 c4Mp2 1 2 c4R1 c4R2 c4Grp c4M2
    rfl rfl rfl rfl rfl rfl rfl (by decide) rfl rfl rfl rfl (by decide) rfl rfl rfl rfl
    rfl rfl (by decide) rfl (by decide) rfl (by decide) (by decide) (by decide)


/-! ### C9 -/

/-- C2 amended: `complete_map` checks for a decision after every single map
completion, but takes one only when every map of the match has a recorded
winner.  (a) While any map is still unplayed, completing a map updates only
the scores: the match's status, winner and participants are unchanged even
when a participant's score already exceeds `N / 2`.  Once the completed map
is the last unrecorded one, the decision fires: (b) a `bo2` standing 1-1 is
passed to `complete_match` with winner `None` (a draw); (c)/(d) otherwise
the participant whose updated score strictly exceeds `N / 2` is passed to
`complete_match` as the winner. -/
theorem c2_decision_once_all_maps_recorded (sh : List (Option Nat) → List (Option Nat)) :
    (∀ (st : TState) (mid mapid : Nat) (m : MatchRec) (mp : MapRec) (w a b : Nat)
      (q : MapRec),
      findMatch st mid = some m →
      m.status = "ongoing" →
      m.participant1_id = some a →
      m.participant2_id = some b →
      w = a ∨ w = b →
      isKnownParticipant st w = true →
      st.maps.find? (fun x => x.id = mapid) = some mp →
      mp.match_id = mid →
      mp.winner_id = none →
      q ∈ st.maps → q.match_id = mid → ¬ q.id = mapid → q.winner_id = none →
      ∃ st', complete_map sh st mid mapid (some w) = .ok st' ∧
        ∃ m', findMatch st' mid = some m' ∧ m'.status = m.status ∧
          m'.winner_id = m.winner_id ∧ m'.participant1_id = m.participant1_id ∧
          m'.participant2_id = m.participant2_id) ∧
    (∀ (st : TState) (mid mapid : Nat) (m : MatchRec) (mp : MapRec) (a b : Nat),
      findMatch st mid = some m →
      m.status = "ongoing" →
      m.format = "bo2" →
      m.participant1_id = some a →
      m.participant2_id = some b →
      ¬ b = a →
      m.participant1_score = 1 →
      m.participant2_score = 0 →
      isKnownParticipant st b = true →
      st.maps.find? (fun x => x.id = mapid) = some mp →
      mp.match_id = mid →
      mp.winner_id = none →
      (∀ q ∈ st.maps, q.match_id = mid → ¬ q.id = mapid → ¬ q.winner_id = none) →
      complete_map sh st mid mapid (some b) =
        complete_match sh (c4ST2 st mid mapid b) mid none) ∧
    (∀ (st : TState) (mid mapid : Nat) (m : MatchRec) (mp : MapRec) (a b N : Nat),
      findMatch st mid = some m →
      m.status = "ongoing" →
      m.participant1_id = some a →
      m.participant2_id = some b →
      isKnownParticipant st a = true →
      st.maps.find? (fun x => x.id = mapid) = some mp →
      mp.match_id = mid →
      mp.winner_id = none →
      (∀ q ∈ st.maps, q.match_id = mid → ¬ q.id = mapid → ¬ q.winner_id = none) →
      startsWithBo m.format = true →
      boNum? m.format = some N →
      ¬ (m.format = "bo2" ∧ m.participant1_score + 1 = 1 ∧ m.participant2_score = 1) →
      N / 2 < m.participant1_score + 1 →
      complete_map sh st mid mapid (some a) =
        complete_match sh (c4ST2 st mid mapid a) mid (some a)) ∧
    (∀ (st : TState) (mid mapid : Nat) (m : MatchRec) (mp : MapRec) (a b N : Nat),
      findMatch st mid = some m →
      m.status = "ongoing" →
      m.participant1_id = some a →
      m.participant2_id = some b →
      ¬ b = a →
      isKnownParticipant st b = true →
      st.maps.find? (fun x => x.id = mapid) = some mp →
      mp.match_id = mid →
      mp.winner_id = none →
      (∀ q ∈ st.maps, q.match_id = mid → ¬ q.id = mapid → ¬ q.winner_id = none) →
      startsWithBo m.format = true →
      boNum? m.format = some N →
      ¬ (m.format = "bo2" ∧ m.participant1_score = 1 ∧ m.participant2_score + 1 = 1) →
      ¬ (N / 2 < m.participant1_score) →
      N / 2 < m.participant2_score + 1 →
      complete_map sh st mid mapid (some b) =
        complete_match sh (c4ST2 st mid mapid b) mid (some b)) := by
  refine ⟨?_, ?_, ?_, ?_⟩
  · intro st mid mapid m mp w a b q hm hst hp1 hp2 hw hknown hmp hmpmid hmpw hq hqmid hqid hqw
    have hmid : m.id = mid := by simpa using List.find?_some hm
    have hall : ((st.maps.map (setMapWinner mapid (some w))).filter
          (fun x => x.match_id = mid)).all (fun x => ¬ x.winner_id = none) = false := by
      rw [List.all_eq_false]
      refine ⟨q, ?_, by simp [hqw]⟩
      rw [List.mem_filter]
      constructor
      · exact List.mem_map.mpr ⟨q, hq, by unfold setMapWinner; rw [if_neg hqid]⟩
      · simp [hqmid]
    have hfm0 : findMatch { st with maps := st.maps.map (setMapWinner mapid (some w)) } mid =
        some m := hm
    have hfm : findMatch (updateMatch
        { st with maps := st.maps.map (setMapWinner mapid (some w)) } mid
        (mapScoreUpd (some w))) mid = some (mapScoreUpd (some w) m) := by
      rw [findMatch_updateMatch _ _ _ (fun mm => (mapScoreUpd_fields (some w) mm).1) mid, hfm0]
      simp [hmid]
    rcases hw with rfl | rfl
    · simp [complete_map, hm, hst, hmp, hmpmid, hmpw, hp1, hp2, hknown]
      rw [hfm]
      dsimp only
      have hcond : ¬ ∀ x ∈ (updateMatch
          { st with maps := st.maps.map (setMapWinner mapid (some w)) } mid
          (mapScoreUpd (some w))).maps, ¬ x.match_id = mid ∨ ¬ x.winner_id = none := by
        intro hforall
        have hqmem : q ∈ (updateMatch
            { st with maps := st.maps.map (setMapWinner mapid (some w)) } mid
            (mapScoreUpd (some w))).maps := by
          rw [updateMatch_maps]
          exact List.mem_map.mpr ⟨q, hq, by unfold setMapWinner; rw [if_neg hqid]⟩
        rcases hforall q hqmem with hc | hc
        · exact hc hqmid
        · exact hc hqw
      rw [if_neg hcond]
      refine ⟨_, rfl, mapScoreUpd (some w) m, hfm, ?_, ?_, ?_, ?_⟩ <;>
        simp [(mapScoreUpd_fields (some w) m).2.1, (mapScoreUpd_fields (some w) m).2.2.1,
          (mapScoreUpd_fields (some w) m).2.2.2.1, (mapScoreUpd_fields (some w) m).2.2.2.2,
          hst, hp1, hp2]
    · simp [complete_map, hm, hst, hmp, hmpmid, hmpw, hp1, hp2, hknown]
      rw [hfm]
      dsimp only
      have hcond : ¬ ∀ x ∈ (updateMatch
          { st with maps := st.maps.map (setMapWinner mapid (some w)) } mid
          (mapScoreUpd (some w))).maps, ¬ x.match_id = mid ∨ ¬ x.winner_id = none := by
        intro hforall
        have hqmem : q ∈ (updateMatch
            { st with maps := st.maps.map (setMapWinner mapid (some w)) } mid
            (mapScoreUpd (some w))).maps := by
          rw [updateMatch_maps]
          exact List.mem_map.mpr ⟨q, hq, by unfold setMapWinner; rw [if_neg hqid]⟩
        rcases hforall q hqmem with hc | hc
        · exact hc hqmid
        · exact hc hqw
      rw [if_neg hcond]
      refine ⟨_, rfl, mapScoreUpd (some w) m, hfm, ?_, ?_, ?_, ?_⟩ <;>
        simp [(mapScoreUpd_fields (some w) m).2.1, (mapScoreUpd_fields (some w) m).2.2.1,
          (mapScoreUpd_fields (some w) m).2.2.2.1, (mapScoreUpd_fields (some w) m).2.2.2.2,
          hst, hp1, hp2]
  · intro st mid mapid m mp a b hm hst hfmt hp1 hp2 hab hs1 hs2 hknown hmp hmpmid hmpw hothers
    have hmid : m.id = mid := by simpa using List.find?_some hm
    have hscore : mapScoreUpd (some b) m =
        { m with participant2_score := m.participant2_score + 1 } := by
      unfold mapScoreUpd
      rw [if_neg (by rw [hp1]; simp [hab]), if_pos (by rw [hp2])]
    have hfm0 : findMatch { st with maps := st.maps.map (setMapWinner mapid (some b)) } mid =
        some m := hm
    have hfm : findMatch (updateMatch
        { st with maps := st.maps.map (setMapWinner mapid (some b)) } mid
        (mapScoreUpd (some b))) mid = some (mapScoreUpd (some b) m) := by
      rw [findMatch_updateMatch _ _ _ (fun mm => (mapScoreUpd_fields (some b) mm).1) mid, hfm0]
      simp [hmid]
    have hallT : ∀ x ∈ (updateMatch
        { st with maps := st.maps.map (setMapWinner mapid (some b)) } mid
        (mapScoreUpd (some b))).maps, ¬ x.match_id = mid ∨ ¬ x.winner_id = none := by
      intro x hx
      rw [updateMatch_maps] at hx
      rcases List.mem_map.mp hx with ⟨y, hy, rfl⟩
      by_cases hyid : y.id = mapid
      · right
        unfold setMapWinner
        rw [if_pos hyid]
        simp
      · by_cases hym : y.match_id = mid
        · right
          unfold setMapWinner
          rw [if_neg hyid]
          exact hothers y hy hym hyid
        · left
          unfold setMapWinner
          rw [if_neg hyid]
          exact hym
    have hM2f : (mapScoreUpd (some b) m).format = "bo2" := by
      rw [hscore]; exact hfmt
    have hM2s1 : (mapScoreUpd (some b) m).participant1_score = 1 := by
      rw [hscore]; exact hs1
    have hM2s2 : (mapScoreUpd (some b) m).participant2_score = 1 := by
      rw [hscore]; show m.participant2_score + 1 = 1; rw [hs2]
    simp [complete_map, hm, hst, hp1, hp2, hmp, hmpmid, hmpw, hknown]
    rw [hfm]
    dsimp only
    rw [if_pos hallT, hM2f, hM2s1, hM2s2]
    rw [if_pos (by decide : startsWithBo "bo2" = true)]
    rw [(by decide : boNum? "bo2" = some 2)]
    dsimp only
    rw [if_pos ⟨rfl, rfl, rfl⟩]
    rfl
  · intro st mid mapid m mp a b N hm hst hp1 hp2 hknown hmp hmpmid hmpw hothers hSW hBN
      hnotdraw hthr
    have hmid : m.id = mid := by simpa using List.find?_some hm
    have hscore : mapScoreUpd (some a) m =
        { m with participant1_score := m.participant1_score + 1 } := by
      unfold mapScoreUpd
      rw [if_pos (by rw [hp1])]
    have hfm0 : findMatch { st with maps := st.maps.map (setMapWinner mapid (some a)) } mid =
        some m := hm
    have hfm : findMatch (updateMatch
        { st with maps := st.maps.map (setMapWinner mapid (some a)) } mid
        (mapScoreUpd (some a))) mid = some (mapScoreUpd (some a) m) := by
      rw [findMatch_updateMatch _ _ _ (fun mm => (mapScoreUpd_fields (some a) mm).1) mid, hfm0]
      simp [hmid]
    have hallT : ∀ x ∈ (updateMatch
        { st with maps := st.maps.map (setMapWinner mapid (some a)) } mid
        (mapScoreUpd (some a))).maps, ¬ x.match_id = mid ∨ ¬ x.winner_id = none := by
      intro x hx
      rw [updateMatch_maps] at hx
      rcases List.mem_map.mp hx with ⟨y, hy, rfl⟩
      by_cases hyid : y.id = mapid
      · right
        unfold setMapWinner
        rw [if_pos hyid]
        simp
      · by_cases hym : y.match_id = mid
        · right
          unfold setMapWinner
          rw [if_neg hyid]
          exact hothers y hy hym hyid
        · left
          unfold setMapWinner
          rw [if_neg hyid]
          exact hym
    have hM2f : (mapScoreUpd (some a) m).format = m.format := by rw [hscore]
    have hM2s1 : (mapScoreUpd (some a) m).participant1_score =
        m.participant1_score + 1 := by rw [hscore]
    have hM2s2 : (mapScoreUpd (some a) m).participant2_score =
        m.participant2_score := by rw [hscore]
    have hM2p1 : (mapScoreUpd (some a) m).participant1_id = some a := by
      rw [hscore]; exact hp1
    simp [complete_map, hm, hst, hp1, hp2, hmp, hmpmid, hmpw, hknown]
    rw [hfm]
    dsimp only
    rw [if_pos hallT, hM2f, hM2s1, hM2s2, hM2p1]
    rw [if_pos hSW]
    rw [hBN]
    dsimp only
    rw [if_neg hnotdraw]
    rw [if_pos hthr]
    rfl
  · intro st mid mapid m mp a b N hm hst hp1 hp2 hab hknown hmp hmpmid hmpw hothers hSW hBN
      hnotdraw hnot1 hthr
    have hmid : m.id = mid := by simpa using List.find?_some hm
    have hscore : mapScoreUpd (some b) m =
        { m with participant2_score := m.participant2_score + 1 } := by
      unfold mapScoreUpd
      rw [if_neg (by rw [hp1]; simp [hab]), if_pos (by rw [hp2])]
    have hfm0 : findMatch { st with maps := st.maps.map (setMapWinner mapid (some b)) } mid =
        some m := hm
    have hfm : findMatch (updateMatch
        { st with maps := st.maps.map (setMapWinner mapid (some b)) } mid
        (mapScoreUpd (some b))) mid = some (mapScoreUpd (some b) m) := by
      rw [findMatch_updateMatch _ _ _ (fun mm => (mapScoreUpd_fields (some b) mm).1) mid, hfm0]
      simp [hmid]
    have hallT : ∀ x ∈ (updateMatch
        { st with maps := st.maps.map (setMapWinner mapid (some b)) } mid
        (mapScoreUpd (some b))).maps, ¬ x.match_id = mid ∨ ¬ x.winner_id = none := by
      intro x hx
      rw [updateMatch_maps] at hx
      rcases List.mem_map.mp hx with ⟨y, hy, rfl⟩
      by_cases hyid : y.id = mapid
      · right
        unfold setMapWinner
        rw [if_pos hyid]
        simp
      · by_cases hym : y.match_id = mid
        · right
          unfold setMapWinner
          rw [if_neg hyid]
          exact hothers y hy hym hyid
        · left
          unfold setMapWinner
          rw [if_neg hyid]
          exact hym
    have hM2f : (mapScoreUpd (some b) m).format = m.format := by rw [hscore]
    have hM2s1 : (mapScoreUpd (some b) m).participant1_score =
        m.participant1_score := by rw [hscore]
    have hM2s2 : (mapScoreUpd (some b) m).participant2_score =
        m.participant2_score + 1 := by rw [hscore]
    have hM2p2 : (mapScoreUpd (some b) m).participant2_id = some b := by
      rw [hscore]; exact hp2
    simp [complete_map, hm, hst, hp1, hp2, hmp, hmpmid, hmpw, hknown]
    rw [hfm]
    dsimp only
    rw [if_pos hallT, hM2f, hM2s1, hM2s2, hM2p2]
    rw [if_pos hSW]
    rw [hBN]
    dsimp only
    rw [if_neg hnotdraw]
    rw [if_neg hnot1]
    rw [if_pos hthr]
    rfl

/-- A `bo3` match at 1-0 whose second recorded map will be the last
unrecorded one: participant 1 winning it exceeds 3/2. -/
def c2MB : MatchRec :=
  { id := 1, participant1_id := some 1, participant2_id := some 2,
    participant1_score := 1, participant2_score := 0, winner_id := none,
    status := "ongoing", format := "bo3", group_id := none,
    playoff_match_id := none, number := 1 }

/-- Tournament for the decision clause: one `bo3` map already won by
participant 1, one map left. -/
def c2StateB : TState :=
  { baseState with
      all_matches := [c2MB],
      maps := [{ id := 11, match_id := 1, winner_id := some 1 },
               { id := 12, match_id := 1, winner_id := none }] }

/-- A `bo2` match at 1-0 with one map left: the opponent winning it makes
the score 1-1. -/
def c2MC : MatchRec :=
  { id := 1, participant1_id := some 1, participant2_id := some 2,
    participant1_score := 1, participant2_score := 0, winner_id := none,
    status := "ongoing", format := "bo2", group_id := none,
    playoff_match_id := none, number := 1 }

/-- Tournament for the `bo2` draw clause. -/
def c2StateC : TState :=
  { baseState with
      all_matches := [c2MC],
      maps := [{ id := 21, match_id := 1, winner_id := some 1 },
               { id := 22, match_id := 1, winner_id := none }] }

/-- A `bo3` match at 0-1: participant 2 winning the last map exceeds 3/2. -/
def c2MD : MatchRec :=
  { id := 1, participant1_id := some 1, participant2_id := some 2,
    participant1_score := 0, participant2_score := 1, winner_id := none,
    status := "ongoing", format := "bo3", group_id := none,
    playoff_match_id := none, number := 1 }

/-- Tournament for the participant-2 decision clause. -/
def c2StateD : TState :=
  { baseState with
      all_matches := [c2MD],
      maps := [{ id := 31, match_id := 1, winner_id := some 2 },
               { id := 32, match_id := 1, winner_id := none }] }

theorem c2_decision_once_all_maps_recorded_witness :
    (∃ st', complete_map (fun l => l) c2State 1 11 (some 1) = .ok st' ∧
      ∃ m', findMatch st' 1 = some m' ∧ m'.status = c2M.status ∧
        m'.winner_id = c2M.winner_id ∧ m'.participant1_id = c2M.participant1_id ∧
        m'.participant2_id = c2M.participant2_id) ∧
    (complete_map (fun l => l) c2StateC 1 22 (some 2) =
      complete_match (fun l => l) (c4ST2 c2StateC 1 22 2) 1 none) ∧
    (complete_map (fun l => l) c2StateB 1 12 (some 1) =
      complete_match (fun l => l) (c4ST2 c2StateB 1 12 1) 1 (some 1)) ∧
    (complete_map (fun l => l) c2StateD 1 32 (some 2) =
      complete_match (fun l => l) (c4ST2 c2StateD 1 32 2) 1 (some 2)) :=
  ⟨(c2_decision_once_all_maps_recorded (fun l => l)).1 c2State 1 11 c2M
     { id := 11, match_id := 1, winner_id := none } 1 1 2
     { id := 12, match_id := 1, winner_id := none }
     rfl rfl rfl rfl (Or.inl rfl) rfl rfl rfl rfl (by decide) rfl (by decide) rfl,
   (c2_decision_once_all_maps_recorded (fun l => l)).2.1 c2StateC 1 22 c2MC
     { id := 22, match_id := 1, winner_id := none } 1 2
     rfl rfl rfl rfl rfl (by decide) rfl rfl rfl rfl rfl rfl (by decide),
   (c2_decision_once_all_maps_recorded (fun l => l)).2.2.1 c2StateB 1 12 c2MB
     { id := 12, match_id := 1, winner_id := none } 1 2 3
     rfl rfl rfl rfl rfl rfl rfl rfl (by decide) rfl rfl (by decide) (by decide),
   (c2_decision_once_all_maps_recorded (fun l => l)).2.2.2 c2StateD 1 32 c2MD
     { id := 32, match_id := 1, winner_id := none } 1 2 3
     rfl rfl rfl rfl (by decide) rfl rfl rfl rfl (by decide) rfl rfl (by decide)
     (by decide) (by decide)⟩


/-! ### C9 (continued): auto-resolution across seeding, bye validation,
completion and propagation -/

end GGForge
